import Mathlib

/-! # The audio buffer cache and the event bridge of `ts3client_wrapper.cpp`

A shallow embedding of the custom-device part of the JNI bridge
(`registerCustomDevice`, `unregisterCustomDevice`, `acquireCustomPlaybackData`,
`processCustomCaptureData`) together with the two global maps
`playByteBufferCache` and `capByteBufferCache`, of the device calls that open, close and
activate sound devices, and of the event bridge: `connectVM`, the eleven callbacks,
`initClassHelper`, `JNI_OnLoad` and `init`.

Conventions of the embedding:

* a `jstring` device identifier is a `String`; the `std::string` key built from the
  characters returned by `GetStringUTFChars` is that same string;
* `jint` and `jlong` values are `Int`, `unsigned int` and `std::size_t` values are `Nat`;
  conversions between them are written out (`toSizeT`, `toJint`), with `std::size_t`
  64 bits wide;
* a `void*` is the `Nat` of its address (`0` is the null pointer);
* every wrapper returns the value it hands back to Java, the two caches after the call and
  the list of calls it made to the runtime, the engine and the log, in program order.
-/

namespace Ts3Wrapper

/-! ## Machine integers -/

/-- Number of values of a `std::size_t` (64 bits). -/
def SIZE_MODULUS : Nat := 2 ^ 64

/-- Number of values of an `unsigned int` or `jint` (32 bits). -/
def UINT_MODULUS : Nat := 2 ^ 32

/-- The conversion of a signed integer to `std::size_t`: reduction modulo `2 ^ 64`. -/
def toSizeT (n : Int) : Nat := (n % (SIZE_MODULUS : Int)).toNat

/-- The value of `sizeof(short)`. -/
def sizeofShort : Nat := 2

/-- Multiplication of two `std::size_t` values (wraps modulo `2 ^ 64`). -/
def sizeMul (a b : Nat) : Nat := (a * b) % SIZE_MODULUS

/-- The conversion of an `unsigned int` (or an enumerator) to the `jint` that is returned:
the same 32 bits read as a signed number. -/
def toJint (u : Nat) : Int :=
  if u % UINT_MODULUS < 2 ^ 31 then ((u % UINT_MODULUS : Nat) : Int)
  else ((u % UINT_MODULUS : Nat) : Int) - (UINT_MODULUS : Int)

/-- The values a `jint` can take. -/
def isJint (n : Int) : Prop := -2147483648 ≤ n ∧ n ≤ 2147483647

instance (n : Int) : Decidable (isJint n) := by
  unfold isJint; exact inferInstance

/-! ## Error constants and the engine -/

/-- Modelled from the spec: the enumerator `ERROR_ok` of `teamspeak/public_errors.h` (a header
that is not among the sources); an engine call has failed exactly when it returns a non-zero
code, so success is code zero. -/
def ERROR_ok : Nat := 0

/-- Modelled from the spec: the two validator codes `ERROR_parameter_invalid` (unknown device)
and `ERROR_parameter_invalid_count` (buffer too small). They are enumerators of
`teamspeak/public_errors.h`, a header that is not among the sources, so their numeric values
are parameters of the development. -/
structure PublicErrors where
  ERROR_parameter_invalid : Nat
  ERROR_parameter_invalid_count : Nat

/-- Modelled from the spec: the entry points of the native engine that the custom-device
wrappers call, declared in `teamspeak/clientlib.h` (not among the sources). Each returns an
`unsigned int` error code; `ts3client_getErrorMessage` also yields the message text. The
engine is a black box, so its answers are parameters. -/
structure Engine where
  ts3client_registerCustomDevice : String → String → Int → Int → Int → Int → Nat
  ts3client_unregisterCustomDevice : String → Nat
  ts3client_acquireCustomPlaybackData : String → Nat → Int → Nat
  ts3client_processCustomCaptureData : String → Nat → Int → Nat
  ts3client_getErrorMessage : Nat → Nat × String
  ts3client_openCaptureDevice : Nat → String → String → Nat
  ts3client_openPlaybackDevice : Nat → String → String → Nat
  ts3client_closeCaptureDevice : Nat → Nat
  ts3client_closePlaybackDevice : Nat → Nat
  ts3client_activateCaptureDevice : Nat → Nat
  ts3client_initClientLib : String → Nat

/-- A call made to the native engine, with its arguments. -/
inductive EngineCall
  | registerCustomDevice (deviceID deviceDisplayName : String)
      (capFrequency capChannels playFrequency playChannels : Int)
  | unregisterCustomDevice (deviceID : String)
  | acquireCustomPlaybackData (deviceID : String) (buffer : Nat) (samples : Int)
  | processCustomCaptureData (deviceID : String) (buffer : Nat) (samples : Int)
  | getErrorMessage (error : Nat)
  | freeMemory
  | openCaptureDevice (serverConnectionHandlerID : Nat) (modeID captureDevice : String)
  | openPlaybackDevice (serverConnectionHandlerID : Nat) (modeID playbackDevice : String)
  | closeCaptureDevice (serverConnectionHandlerID : Nat)
  | closePlaybackDevice (serverConnectionHandlerID : Nat)
  | activateCaptureDevice (serverConnectionHandlerID : Nat)
  | initClientLib (resourcesFolder : String)
  deriving DecidableEq, Repr

/-- What a wrapper does besides computing its result, in program order. -/
inductive Effect
  | GetStringUTFChars (s : String)
  | ReleaseStringUTFChars (s : String)
  | engine (c : EngineCall)
  | LOGE (msg : String)
  | LOGD (msg : String)
  deriving DecidableEq, Repr

/-- A non-null `jobject` byte buffer as the wrapper sees it: what `GetDirectBufferCapacity`
(a `jlong`) and `GetDirectBufferAddress` (a `void*`) return for it. -/
structure ByteBuffer where
  capacity : Int
  address : Nat
  deriving DecidableEq, Repr

/-! ## The caches -/

/-- The type `std::unordered_map<std::string, std::pair<std::size_t, void*>>`: a finite map
with at most one entry per key, from a device identifier to (capacity in bytes, address). -/
abbrev ByteBufferCache := AList (fun _ : String => Nat × Nat)

/-- Two caches are equal when their entries are; this instance evaluates on concrete maps. -/
instance instDecidableEqByteBufferCache : DecidableEq ByteBufferCache :=
  fun a b => decidable_of_iff (a.entries = b.entries) AList.ext_iff.symm

namespace ByteBufferCache

/-- The member `find`, with `none` for the `end()` iterator. -/
def find (m : ByteBufferCache) (k : String) : Option (Nat × Nat) := m.lookup k

/-- The member `emplace`: the entry is added only when the key has no entry yet. -/
def emplace (m : ByteBufferCache) (k : String) (v : Nat × Nat) : ByteBufferCache :=
  match m.lookup k with
  | some _ => m
  | none => m.insert k v

/-- The idiom `it = m.find(k); if (it != m.end()) m.erase(it);`. -/
def findErase (m : ByteBufferCache) (k : String) : ByteBufferCache :=
  match m.lookup k with
  | some _ => m.erase k
  | none => m

end ByteBufferCache

/-- The two global maps. -/
structure Globals where
  playByteBufferCache : ByteBufferCache
  capByteBufferCache : ByteBufferCache
  deriving DecidableEq

/-- The result of one wrapper call. -/
structure Outcome where
  ret : Int
  globals : Globals
  effects : List Effect
  deriving DecidableEq

/-- The argument of `emplace` built from a buffer: the capacity cast to `std::size_t`, and
the address. -/
def bufferPair (b : ByteBuffer) : Nat × Nat := (toSizeT b.capacity, b.address)

/-- The error report after a failed engine call: the message is looked up, logged and freed
when the lookup succeeds; `fallback` is what is logged otherwise (nothing when `none`). -/
def reportError (eng : Engine) (error : Nat) (text : String) (fallback : Option String) :
    List Effect :=
  Effect.engine (EngineCall.getErrorMessage error) ::
    (if (eng.ts3client_getErrorMessage error).1 = ERROR_ok then
      [Effect.LOGE (text ++ (eng.ts3client_getErrorMessage error).2),
       Effect.engine EngineCall.freeMemory]
    else
      match fallback with
      | some msg => [Effect.LOGE msg]
      | none => [])

/-! ## The wrappers -/

/-- The function `..._ts3client_1registerCustomDevice`. -/
def Java_com_teamspeak_ts3sdkclient_ts3sdk_Native_ts3client_1registerCustomDevice
    (eng : Engine) (g : Globals) (deviceID deviceDisplayName : String)
    (capFrequency capChannels : Int) (cap_byte_buffer : Option ByteBuffer)
    (playFrequency playChannels : Int) (play_byte_buffer : Option ByteBuffer) : Outcome :=
  let error := eng.ts3client_registerCustomDevice deviceID deviceDisplayName
    capFrequency capChannels playFrequency playChannels
  let report :=
    if error ≠ ERROR_ok then
      reportError eng error "Error registering custom sound device: "
        (some "Error registering custom sound device.")
    else []
  let g1 : Globals :=
    if error = ERROR_ok then
      let play :=
        match play_byte_buffer with
        | some b => g.playByteBufferCache.emplace deviceID (bufferPair b)
        | none => g.playByteBufferCache
      let cap :=
        match cap_byte_buffer with
        | some b => g.capByteBufferCache.emplace deviceID (bufferPair b)
        | none => g.capByteBufferCache
      { playByteBufferCache := play, capByteBufferCache := cap }
    else g
  { ret := toJint error
    globals := g1
    effects :=
      [Effect.GetStringUTFChars deviceID, Effect.GetStringUTFChars deviceDisplayName,
        Effect.engine (EngineCall.registerCustomDevice deviceID deviceDisplayName
          capFrequency capChannels playFrequency playChannels)]
      ++ report ++
      [Effect.ReleaseStringUTFChars deviceID, Effect.ReleaseStringUTFChars deviceDisplayName] }

/-- The function `..._ts3client_1unregisterCustomDevice`. -/
def Java_com_teamspeak_ts3sdkclient_ts3sdk_Native_ts3client_1unregisterCustomDevice
    (eng : Engine) (g : Globals) (deviceID : String) : Outcome :=
  let error := eng.ts3client_unregisterCustomDevice deviceID
  let report :=
    if error ≠ ERROR_ok then
      reportError eng error "Error unregistering custom sound device: "
        (some "Error unregistering custom sound device.")
    else []
  { ret := toJint error
    globals :=
      { playByteBufferCache := g.playByteBufferCache.findErase deviceID
        capByteBufferCache := g.capByteBufferCache.findErase deviceID }
    effects :=
      [Effect.GetStringUTFChars deviceID, Effect.LOGD "Unregistering custom sound device",
        Effect.engine (EngineCall.unregisterCustomDevice deviceID)]
      ++ report ++ [Effect.ReleaseStringUTFChars deviceID] }

/-- The function `..._ts3client_1acquireCustomPlaybackData`. -/
def Java_com_teamspeak_ts3sdkclient_ts3sdk_Native_ts3client_1acquireCustomPlaybackData
    (E : PublicErrors) (eng : Engine) (g : Globals) (deviceID : String) (samples : Int) :
    Outcome :=
  match g.playByteBufferCache.find deviceID with
  | none =>
    { ret := toJint E.ERROR_parameter_invalid, globals := g,
      effects := [Effect.GetStringUTFChars deviceID] }
  | some (byte_buffer_size, byte_buffer) =>
    if sizeMul (toSizeT samples) sizeofShort > byte_buffer_size then
      { ret := toJint E.ERROR_parameter_invalid_count, globals := g,
        effects := [Effect.GetStringUTFChars deviceID] }
    else
      let error := eng.ts3client_acquireCustomPlaybackData deviceID byte_buffer samples
      { ret := toJint error, globals := g,
        effects :=
          [Effect.GetStringUTFChars deviceID,
            Effect.engine (EngineCall.acquireCustomPlaybackData deviceID byte_buffer samples),
            Effect.ReleaseStringUTFChars deviceID] }

/-- The function `..._ts3client_1processCustomCaptureData`. -/
def Java_com_teamspeak_ts3sdkclient_ts3sdk_Native_ts3client_1processCustomCaptureData
    (E : PublicErrors) (eng : Engine) (g : Globals) (deviceID : String) (samples : Int) :
    Outcome :=
  match g.capByteBufferCache.find deviceID with
  | none =>
    { ret := toJint E.ERROR_parameter_invalid, globals := g,
      effects := [Effect.GetStringUTFChars deviceID] }
  | some (byte_buffer_size, byte_buffer) =>
    if sizeMul (toSizeT samples) sizeofShort > byte_buffer_size then
      { ret := toJint E.ERROR_parameter_invalid_count, globals := g,
        effects := [Effect.GetStringUTFChars deviceID] }
    else
      let error := eng.ts3client_processCustomCaptureData deviceID byte_buffer samples
      let report :=
        if error ≠ ERROR_ok then
          reportError eng error "Failed to process capture data: " none
        else []
      { ret := toJint error, globals := g,
        effects :=
          [Effect.GetStringUTFChars deviceID,
            Effect.engine (EngineCall.processCustomCaptureData deviceID byte_buffer samples)]
          ++ report ++ [Effect.ReleaseStringUTFChars deviceID] }

/-! ## Reading an outcome -/

/-- The engine calls among the effects, in order. -/
def engineCalls : List Effect → List EngineCall
  | [] => []
  | Effect.engine c :: t => c :: engineCalls t
  | _ :: t => engineCalls t

/-- The calls to `ts3client_acquireCustomPlaybackData` and `ts3client_processCustomCaptureData`
among the effects: the only engine calls that are handed a buffer pointer. -/
def bufferCalls : List Effect → List EngineCall
  | [] => []
  | Effect.engine (EngineCall.acquireCustomPlaybackData d b n) :: t =>
      EngineCall.acquireCustomPlaybackData d b n :: bufferCalls t
  | Effect.engine (EngineCall.processCustomCaptureData d b n) :: t =>
      EngineCall.processCustomCaptureData d b n :: bufferCalls t
  | _ :: t => bufferCalls t

/-- A test engine: every call answers `code`, and the message lookup succeeds. -/
def constEngine (code : Nat) : Engine where
  ts3client_registerCustomDevice := fun _ _ _ _ _ _ => code
  ts3client_unregisterCustomDevice := fun _ => code
  ts3client_acquireCustomPlaybackData := fun _ _ _ => code
  ts3client_processCustomCaptureData := fun _ _ _ => code
  ts3client_getErrorMessage := fun _ => (0, "error")
  ts3client_openCaptureDevice := fun _ _ _ => code
  ts3client_openPlaybackDevice := fun _ _ _ => code
  ts3client_closeCaptureDevice := fun _ => code
  ts3client_closePlaybackDevice := fun _ => code
  ts3client_activateCaptureDevice := fun _ => code
  ts3client_initClientLib := fun _ => code

/-- The values of the validator codes used in the examples. -/
def sampleErrors : PublicErrors where
  ERROR_parameter_invalid := 0x0602
  ERROR_parameter_invalid_count := 0x0601

/-- The state with both caches empty, as at load time. -/
def emptyGlobals : Globals where
  playByteBufferCache := ∅
  capByteBufferCache := ∅

/-- A state whose playback cache holds one entry. -/
def playOnly (deviceID : String) (capacity address : Nat) : Globals where
  playByteBufferCache := (∅ : ByteBufferCache).insert deviceID (capacity, address)
  capByteBufferCache := ∅

/-- A state whose capture cache holds one entry. -/
def capOnly (deviceID : String) (capacity address : Nat) : Globals where
  playByteBufferCache := ∅
  capByteBufferCache := (∅ : ByteBufferCache).insert deviceID (capacity, address)

/-! ## Opening, closing and activating sound devices -/

/-- The cast `(uint64)` of a `jlong`: reduction modulo `2 ^ 64`. -/
def toUint64 (n : Int) : Nat := (n % (2 ^ 64 : Int)).toNat

/-- The result of a wrapper that does not touch the caches. -/
structure Returned where
  ret : Int
  effects : List Effect
  deriving DecidableEq

/-- The function `..._ts3client_1openCaptureDevice`. -/
def Java_com_teamspeak_ts3sdkclient_ts3sdk_Native_ts3client_1openCaptureDevice (eng : Engine) (serverConnectionHandlerID : Int)
    (modeID captureDevice : String) : Returned :=
  let error := eng.ts3client_openCaptureDevice (toUint64 serverConnectionHandlerID)
    modeID captureDevice
  let report :=
    if error ≠ ERROR_ok then
      reportError eng error "Error opening capture device: "
        (some "Error opening capture device.")
    else []
  { ret := 0
    effects :=
      [Effect.GetStringUTFChars modeID, Effect.GetStringUTFChars captureDevice,
        Effect.engine (EngineCall.openCaptureDevice (toUint64 serverConnectionHandlerID)
          modeID captureDevice)]
      ++ report ++
      [Effect.ReleaseStringUTFChars modeID, Effect.ReleaseStringUTFChars captureDevice] }

/-- The function `..._ts3client_1openPlaybackDevice`. -/
def Java_com_teamspeak_ts3sdkclient_ts3sdk_Native_ts3client_1openPlaybackDevice (eng : Engine) (serverConnectionHandlerID : Int)
    (modeID captureDevice : String) : Returned :=
  let error := eng.ts3client_openPlaybackDevice (toUint64 serverConnectionHandlerID)
    modeID captureDevice
  let report :=
    if error ≠ ERROR_ok then
      reportError eng error "Error opening playback device: "
        (some "Error opening playback device.")
    else []
  { ret := 0
    effects :=
      [Effect.GetStringUTFChars modeID, Effect.GetStringUTFChars captureDevice,
        Effect.engine (EngineCall.openPlaybackDevice (toUint64 serverConnectionHandlerID)
          modeID captureDevice)]
      ++ report ++
      [Effect.ReleaseStringUTFChars modeID, Effect.ReleaseStringUTFChars captureDevice] }

/-- The function `..._ts3client_1closeCaptureDevice`. -/
def Java_com_teamspeak_ts3sdkclient_ts3sdk_Native_ts3client_1closeCaptureDevice (eng : Engine) (serverConnectionHandlerID : Int) : Returned :=
  let error := eng.ts3client_closeCaptureDevice (toUint64 serverConnectionHandlerID)
  let report :=
    if error ≠ ERROR_ok then
      reportError eng error "Error closing capture device: "
        (some "Error closing capture device.")
    else []
  { ret := 0
    effects :=
      [Effect.engine (EngineCall.closeCaptureDevice (toUint64 serverConnectionHandlerID))]
      ++ report }

/-- The function `..._ts3client_1closePlaybackDevice`. -/
def Java_com_teamspeak_ts3sdkclient_ts3sdk_Native_ts3client_1closePlaybackDevice (eng : Engine) (serverConnectionHandlerID : Int) : Returned :=
  let error := eng.ts3client_closePlaybackDevice (toUint64 serverConnectionHandlerID)
  let report :=
    if error ≠ ERROR_ok then
      reportError eng error "Error closing playback device: "
        (some "Error closing playback device.")
    else []
  { ret := 0
    effects :=
      [Effect.engine (EngineCall.closePlaybackDevice (toUint64 serverConnectionHandlerID))]
      ++ report }

/-- The function `..._ts3client_1activateCaptureDevice`. -/
def Java_com_teamspeak_ts3sdkclient_ts3sdk_Native_ts3client_1activateCaptureDevice (eng : Engine) (serverConnectionHandlerID : Int) : Returned :=
  let error := eng.ts3client_activateCaptureDevice (toUint64 serverConnectionHandlerID)
  let report :=
    if error ≠ ERROR_ok then
      reportError eng error "Error activating capture device: "
        (some "Error activating capture device.")
    else []
  { ret := 0
    effects :=
      [Effect.engine (EngineCall.activateCaptureDevice (toUint64 serverConnectionHandlerID))]
      ++ report }

/-! ## The Java runtime seen from a callback

References (`jobject`, `jclass`) and method identifiers (`jmethodID`) are `Nat`s, `0` being
the null value. What the runtime answers is a parameter: the callbacks are examined for every
runtime. A call made through `env` is recorded with a flag telling whether `env` held a valid
pointer at that moment. -/

/-- The conversion of an unsigned 64-bit value to `jlong`: the same 64 bits, signed. -/
def toJlong (u : Nat) : Int :=
  if u % 2 ^ 64 < 2 ^ 63 then ((u % 2 ^ 64 : Nat) : Int)
  else ((u % 2 ^ 64 : Nat) : Int) - (2 ^ 64 : Int)

/-- The constant `JNI_OK` of `jni.h`. -/
def JNI_OK : Int := 0

/-- The constant `JNI_VERSION_1_6` of `jni.h`. -/
def JNI_VERSION_1_6 : Int := 0x00010006

/-- An argument passed through the variable argument list of `NewObject`, with the C type it
has after the default promotions (an `anyID`, an unsigned 16-bit integer, is passed as
`int`). -/
inductive CArg
  | uint64 (v : Nat)
  | int (v : Int)
  | unsignedInt (v : Nat)
  | jobject (ref : Nat)
  deriving DecidableEq, Repr

/-- A parameter type of a Java method signature: `J`, `I` or a class type `L...;`. -/
inductive JType
  | long
  | int
  | object
  deriving DecidableEq, Repr

/-- A value received by a Java constructor. -/
inductive JValue
  | long (v : Int)
  | int (v : Int)
  | object (ref : Nat)
  deriving DecidableEq, Repr

/-- The rest of a signature after the class name of an `L...;` parameter. -/
def skipClassName : List Char → List Char
  | [] => []
  | c :: t => if c = ';' then t else skipClassName t

/-- The parameter types of a signature from which the opening bracket was removed;
`fuel` bounds the number of parameters. -/
def parseParams : Nat → List Char → Option (List JType)
  | 0, _ => none
  | _ + 1, [] => none
  | fuel + 1, c :: t =>
    if c = ')' then some []
    else if c = 'J' then (parseParams fuel t).map (fun ts => JType.long :: ts)
    else if c = 'I' then (parseParams fuel t).map (fun ts => JType.int :: ts)
    else if c = 'L' then
      (parseParams fuel (skipClassName t)).map (fun ts => JType.object :: ts)
    else none

/-- The parameter types of a method signature such as `(JII)V`. -/
def parseSignature (sig : String) : Option (List JType) :=
  match sig.data with
  | '(' :: t => parseParams sig.length t
  | _ => none

/-- How the runtime reads a variable argument list against the parameter types of the method:
a `J` takes a 64-bit argument, an `I` a 32-bit one, a class type a reference, bit for bit;
any other combination is not a valid call. -/
def readArgs : List JType → List CArg → Option (List JValue)
  | [], [] => some []
  | JType.long :: ts, CArg.uint64 v :: rest =>
      (readArgs ts rest).map (fun vs => JValue.long (toJlong v) :: vs)
  | JType.int :: ts, CArg.int v :: rest =>
      (readArgs ts rest).map (fun vs => JValue.int v :: vs)
  | JType.int :: ts, CArg.unsignedInt v :: rest =>
      (readArgs ts rest).map (fun vs => JValue.int (toJint v) :: vs)
  | JType.object :: ts, CArg.jobject r :: rest =>
      (readArgs ts rest).map (fun vs => JValue.object r :: vs)
  | _, _ => none

/-- A call on a `JNIEnv`. -/
inductive JniCall
  | GetJavaVM
  | FindClass (path : String)
  | GetObjectClass (obj : Nat)
  | GetMethodID (cls : Nat) (name sig : String)
  | NewObject (cls method : Nat) (args : List CArg)
  | NewGlobalRef (obj : Nat)
  | NewStringUTF (s : String)
  | NewLocalRef (ref : Nat)
  | CallVoidMethod (obj method : Nat)
  deriving DecidableEq, Repr

/-- A call on the `JavaVM`. -/
inductive VmCall
  | GetEnv
  | AttachCurrentThread
  | DetachCurrentThread
  deriving DecidableEq, Repr

/-- What a callback or the load hook does, in program order. -/
inductive CbEffect
  | vm (c : VmCall)
  | env (valid : Bool) (c : JniCall)
  | LOGE (msg : String)
  | LOGI (msg : String)
  | LOGD (msg : String)
  deriving DecidableEq, Repr

/-- The answers of the `JavaVM` to the calling thread: the status returned by `GetEnv` and the
status `AttachCurrentThread` returns if it is called. -/
structure JavaVM where
  GetEnv : Int
  AttachCurrentThread : Int

/-- The answers of the runtime to the calls made through a `JNIEnv`. -/
structure JNIEnv where
  FindClass : String → Nat
  GetObjectClass : Nat → Nat
  GetMethodID : Nat → String → String → Nat
  NewObject : Nat → Nat → List CArg → Nat
  NewGlobalRef : Nat → Nat
  NewStringUTF : String → Nat
  NewLocalRef : Nat → Nat

/-- The static variables of the event bridge: `StringClass` and the eleven pairs
(target object, `Post` method). -/
structure Statics where
  StringClass : Nat
  Android_Event_ConnectStatusChange : Nat × Nat
  Android_Event_NewChannel : Nat × Nat
  Android_Event_NewChannelCreated : Nat × Nat
  Android_Event_DelChannel : Nat × Nat
  Android_Event_ClientMove : Nat × Nat
  Android_Event_ClientMoveSubscription : Nat × Nat
  Android_Event_ClientMoveTimeout : Nat × Nat
  Android_Event_ClientMoveMoved : Nat × Nat
  Android_Event_TalkStatusChange : Nat × Nat
  Android_Event_ServerError : Nat × Nat
  Android_Event_UserLoggingMessage : Nat × Nat
  deriving DecidableEq, Repr

/-- The statics before `JNI_OnLoad` runs: zero-initialised. -/
def zeroStatics : Statics where
  StringClass := 0
  Android_Event_ConnectStatusChange := (0, 0)
  Android_Event_NewChannel := (0, 0)
  Android_Event_NewChannelCreated := (0, 0)
  Android_Event_DelChannel := (0, 0)
  Android_Event_ClientMove := (0, 0)
  Android_Event_ClientMoveSubscription := (0, 0)
  Android_Event_ClientMoveTimeout := (0, 0)
  Android_Event_ClientMoveMoved := (0, 0)
  Android_Event_TalkStatusChange := (0, 0)
  Android_Event_ServerError := (0, 0)
  Android_Event_UserLoggingMessage := (0, 0)

/-- The outcome of `connectVM`: the value returned, whether `env` holds a valid pointer
afterwards, and the calls made. -/
structure Connected where
  isAttached : Bool
  env : Bool
  effects : List CbEffect
  deriving DecidableEq

/-- The function `connectVM`. -/
def connectVM (gJavaVM : JavaVM) : Connected :=
  if gJavaVM.GetEnv < 0 then
    if gJavaVM.AttachCurrentThread < 0 then
      { isAttached := false, env := false,
        effects := [CbEffect.vm VmCall.GetEnv, CbEffect.vm VmCall.AttachCurrentThread,
          CbEffect.LOGE "callback_handler: failed to attach current thread"] }
    else
      { isAttached := true, env := true,
        effects := [CbEffect.vm VmCall.GetEnv, CbEffect.vm VmCall.AttachCurrentThread] }
  else
    { isAttached := false, env := true, effects := [CbEffect.vm VmCall.GetEnv] }

/-- The closing statement of every callback: `if (isAttached) gJavaVM->DetachCurrentThread()`. -/
def detachIfAttached (isAttached : Bool) : List CbEffect :=
  if isAttached then [CbEffect.vm VmCall.DetachCurrentThread] else []

/-- The statement `jobject temp = env->NewLocalRef(env->NewStringUTF(s))`: the reference
obtained. -/
def newLocalString (env : JNIEnv) (s : String) : Nat :=
  env.NewLocalRef (env.NewStringUTF s)

/-- The calls made by `jobject temp = env->NewLocalRef(env->NewStringUTF(s))`. -/
def newLocalStringCalls (valid : Bool) (env : JNIEnv) (s : String) : List CbEffect :=
  [CbEffect.env valid (JniCall.NewStringUTF s),
    CbEffect.env valid (JniCall.NewLocalRef (env.NewStringUTF s))]

/-! ## The eleven callbacks -/

/-- The callback `onConnectStatusChangeEvent`. -/
def onConnectStatusChangeEvent (gJavaVM : JavaVM) (env : JNIEnv) (st : Statics)
    (serverConnectionHandlerID : Nat) (newStatus : Int) (errorNumber : Nat) : List CbEffect :=
  let c := connectVM gJavaVM
  let cache := st.Android_Event_ConnectStatusChange
  let interfaceClass := env.GetObjectClass cache.1
  let method := env.GetMethodID interfaceClass "<init>"
    "(JII)V"
  let args := [CArg.uint64 serverConnectionHandlerID,
    CArg.int newStatus,
    CArg.unsignedInt errorNumber]
  let new_object := env.NewObject interfaceClass method args
  c.effects ++
    [CbEffect.LOGI "ConnectStatusChange"] ++
    [CbEffect.env c.env (JniCall.GetObjectClass cache.1),
      CbEffect.env c.env (JniCall.GetMethodID interfaceClass "<init>"
        "(JII)V")] ++
    [CbEffect.env c.env (JniCall.NewObject interfaceClass method args),
      CbEffect.env c.env (JniCall.CallVoidMethod new_object cache.2)] ++
    detachIfAttached c.isAttached

/-- The callback `onNewChannelEvent`. -/
def onNewChannelEvent (gJavaVM : JavaVM) (env : JNIEnv) (st : Statics)
    (serverConnectionHandlerID : Nat) (channelID : Nat) (channelParentID : Nat) : List CbEffect :=
  let c := connectVM gJavaVM
  let cache := st.Android_Event_NewChannel
  let interfaceClass := env.GetObjectClass cache.1
  let method := env.GetMethodID interfaceClass "<init>"
    "(JJJ)V"
  let args := [CArg.uint64 serverConnectionHandlerID,
    CArg.uint64 channelID,
    CArg.uint64 channelParentID]
  let new_object := env.NewObject interfaceClass method args
  c.effects ++
    [CbEffect.env c.env (JniCall.GetObjectClass cache.1),
      CbEffect.env c.env (JniCall.GetMethodID interfaceClass "<init>"
        "(JJJ)V")] ++
    [CbEffect.env c.env (JniCall.NewObject interfaceClass method args),
      CbEffect.env c.env (JniCall.CallVoidMethod new_object cache.2)] ++
    detachIfAttached c.isAttached

/-- The callback `onNewChannelCreatedEvent`. -/
def onNewChannelCreatedEvent (gJavaVM : JavaVM) (env : JNIEnv) (st : Statics)
    (serverConnectionHandlerID : Nat) (channelID : Nat) (channelParentID : Nat)
    (invokerID : Nat) (invokerName : String) (invokerUniqueIdentifier : String) : List CbEffect :=
  let c := connectVM gJavaVM
  let cache := st.Android_Event_NewChannelCreated
  let interfaceClass := env.GetObjectClass cache.1
  let method := env.GetMethodID interfaceClass "<init>"
    "(JJJILjava/lang/String;Ljava/lang/String;)V"
  let temp1 := newLocalString env invokerName
  let temp2 := newLocalString env invokerUniqueIdentifier
  let args := [CArg.uint64 serverConnectionHandlerID,
    CArg.uint64 channelID,
    CArg.uint64 channelParentID,
    CArg.int (invokerID : Int),
    CArg.jobject temp1,
    CArg.jobject temp2]
  let new_object := env.NewObject interfaceClass method args
  c.effects ++
    [CbEffect.env c.env (JniCall.GetObjectClass cache.1),
      CbEffect.env c.env (JniCall.GetMethodID interfaceClass "<init>"
        "(JJJILjava/lang/String;Ljava/lang/String;)V")] ++
    newLocalStringCalls c.env env invokerName ++
    newLocalStringCalls c.env env invokerUniqueIdentifier ++
    [CbEffect.env c.env (JniCall.NewObject interfaceClass method args),
      CbEffect.env c.env (JniCall.CallVoidMethod new_object cache.2)] ++
    detachIfAttached c.isAttached

/-- The callback `onDelChannelEvent`. -/
def onDelChannelEvent (gJavaVM : JavaVM) (env : JNIEnv) (st : Statics)
    (serverConnectionHandlerID : Nat) (channelID : Nat) (invokerID : Nat)
    (invokerName : String) (invokerUniqueIdentifier : String) : List CbEffect :=
  let c := connectVM gJavaVM
  let cache := st.Android_Event_DelChannel
  let interfaceClass := env.GetObjectClass cache.1
  let method := env.GetMethodID interfaceClass "<init>"
    "(JJILjava/lang/String;Ljava/lang/String;)V"
  let temp1 := newLocalString env invokerName
  let temp2 := newLocalString env invokerUniqueIdentifier
  let args := [CArg.uint64 serverConnectionHandlerID,
    CArg.uint64 channelID,
    CArg.int (invokerID : Int),
    CArg.jobject temp1,
    CArg.jobject temp2]
  let new_object := env.NewObject interfaceClass method args
  c.effects ++
    [CbEffect.env c.env (JniCall.GetObjectClass cache.1),
      CbEffect.env c.env (JniCall.GetMethodID interfaceClass "<init>"
        "(JJILjava/lang/String;Ljava/lang/String;)V")] ++
    newLocalStringCalls c.env env invokerName ++
    newLocalStringCalls c.env env invokerUniqueIdentifier ++
    [CbEffect.env c.env (JniCall.NewObject interfaceClass method args),
      CbEffect.env c.env (JniCall.CallVoidMethod new_object cache.2)] ++
    detachIfAttached c.isAttached

/-- The callback `onClientMoveEvent`. -/
def onClientMoveEvent (gJavaVM : JavaVM) (env : JNIEnv) (st : Statics)
    (serverConnectionHandlerID : Nat) (clientID : Nat) (oldChannelID : Nat)
    (newChannelID : Nat) (visibility : Int) (moveMessage : String) : List CbEffect :=
  let c := connectVM gJavaVM
  let cache := st.Android_Event_ClientMove
  let interfaceClass := env.GetObjectClass cache.1
  let method := env.GetMethodID interfaceClass "<init>"
    "(JIJJILjava/lang/String;)V"
  let temp1 := newLocalString env moveMessage
  let args := [CArg.uint64 serverConnectionHandlerID,
    CArg.int (clientID : Int),
    CArg.uint64 oldChannelID,
    CArg.uint64 newChannelID,
    CArg.int visibility,
    CArg.jobject temp1]
  let new_object := env.NewObject interfaceClass method args
  c.effects ++
    [CbEffect.env c.env (JniCall.GetObjectClass cache.1),
      CbEffect.env c.env (JniCall.GetMethodID interfaceClass "<init>"
        "(JIJJILjava/lang/String;)V")] ++
    newLocalStringCalls c.env env moveMessage ++
    [CbEffect.env c.env (JniCall.NewObject interfaceClass method args),
      CbEffect.env c.env (JniCall.CallVoidMethod new_object cache.2)] ++
    detachIfAttached c.isAttached

/-- The callback `onClientMoveSubscriptionEvent`. -/
def onClientMoveSubscriptionEvent (gJavaVM : JavaVM) (env : JNIEnv) (st : Statics)
    (serverConnectionHandlerID : Nat) (clientID : Nat) (oldChannelID : Nat)
    (newChannelID : Nat) (visibility : Int) : List CbEffect :=
  let c := connectVM gJavaVM
  let cache := st.Android_Event_ClientMoveSubscription
  let interfaceClass := env.GetObjectClass cache.1
  let method := env.GetMethodID interfaceClass "<init>"
    "(JIJJI)V"
  let args := [CArg.uint64 serverConnectionHandlerID,
    CArg.int (clientID : Int),
    CArg.uint64 oldChannelID,
    CArg.uint64 newChannelID,
    CArg.int visibility]
  let new_object := env.NewObject interfaceClass method args
  c.effects ++
    [CbEffect.env c.env (JniCall.GetObjectClass cache.1),
      CbEffect.env c.env (JniCall.GetMethodID interfaceClass "<init>"
        "(JIJJI)V")] ++
    [CbEffect.env c.env (JniCall.NewObject interfaceClass method args),
      CbEffect.env c.env (JniCall.CallVoidMethod new_object cache.2)] ++
    detachIfAttached c.isAttached

/-- The callback `onClientMoveTimeoutEvent`. -/
def onClientMoveTimeoutEvent (gJavaVM : JavaVM) (env : JNIEnv) (st : Statics)
    (serverConnectionHandlerID : Nat) (clientID : Nat) (oldChannelID : Nat)
    (newChannelID : Nat) (visibility : Int) (timeoutMessage : String) : List CbEffect :=
  let c := connectVM gJavaVM
  let cache := st.Android_Event_ClientMoveTimeout
  let interfaceClass := env.GetObjectClass cache.1
  let method := env.GetMethodID interfaceClass "<init>"
    "(JIJJILjava/lang/String;)V"
  let temp1 := newLocalString env timeoutMessage
  let args := [CArg.uint64 serverConnectionHandlerID,
    CArg.int (clientID : Int),
    CArg.uint64 oldChannelID,
    CArg.uint64 newChannelID,
    CArg.int visibility,
    CArg.jobject temp1]
  let new_object := env.NewObject interfaceClass method args
  c.effects ++
    [CbEffect.env c.env (JniCall.GetObjectClass cache.1),
      CbEffect.env c.env (JniCall.GetMethodID interfaceClass "<init>"
        "(JIJJILjava/lang/String;)V")] ++
    newLocalStringCalls c.env env timeoutMessage ++
    [CbEffect.env c.env (JniCall.NewObject interfaceClass method args),
      CbEffect.env c.env (JniCall.CallVoidMethod new_object cache.2)] ++
    detachIfAttached c.isAttached

/-- The callback `onClientMoveMovedEvent`. -/
def onClientMoveMovedEvent (gJavaVM : JavaVM) (env : JNIEnv) (st : Statics)
    (serverConnectionHandlerID : Nat) (clientID : Nat) (oldChannelID : Nat)
    (newChannelID : Nat) (visibility : Int) (moverID : Nat) (moverName : String)
    (moverUniqueIdentifier : String) (moveMessage : String) : List CbEffect :=
  let c := connectVM gJavaVM
  let cache := st.Android_Event_ClientMoveMoved
  let interfaceClass := env.GetObjectClass cache.1
  let method := env.GetMethodID interfaceClass "<init>"
    "(JIJJIILjava/lang/String;Ljava/lang/String;Ljava/lang/String;)V"
  let temp1 := newLocalString env moverName
  let temp2 := newLocalString env moverUniqueIdentifier
  let temp3 := newLocalString env moveMessage
  let args := [CArg.uint64 serverConnectionHandlerID,
    CArg.int (clientID : Int),
    CArg.uint64 oldChannelID,
    CArg.uint64 newChannelID,
    CArg.int visibility,
    CArg.int (moverID : Int),
    CArg.jobject temp1,
    CArg.jobject temp2,
    CArg.jobject temp3]
  let new_object := env.NewObject interfaceClass method args
  c.effects ++
    [CbEffect.env c.env (JniCall.GetObjectClass cache.1),
      CbEffect.env c.env (JniCall.GetMethodID interfaceClass "<init>"
        "(JIJJIILjava/lang/String;Ljava/lang/String;Ljava/lang/String;)V")] ++
    newLocalStringCalls c.env env moverName ++
    newLocalStringCalls c.env env moverUniqueIdentifier ++
    newLocalStringCalls c.env env moveMessage ++
    [CbEffect.env c.env (JniCall.NewObject interfaceClass method args),
      CbEffect.env c.env (JniCall.CallVoidMethod new_object cache.2)] ++
    detachIfAttached c.isAttached

/-- The callback `onTalkStatusChangeEvent`. -/
def onTalkStatusChangeEvent (gJavaVM : JavaVM) (env : JNIEnv) (st : Statics)
    (serverConnectionHandlerID : Nat) (status : Int) (isReceivedWhisper : Int) (clientID : Nat) : List CbEffect :=
  let c := connectVM gJavaVM
  let cache := st.Android_Event_TalkStatusChange
  let interfaceClass := env.GetObjectClass cache.1
  let method := env.GetMethodID interfaceClass "<init>"
    "(JIII)V"
  let args := [CArg.uint64 serverConnectionHandlerID,
    CArg.int status,
    CArg.int isReceivedWhisper,
    CArg.int (clientID : Int)]
  let new_object := env.NewObject interfaceClass method args
  c.effects ++
    [CbEffect.env c.env (JniCall.GetObjectClass cache.1),
      CbEffect.env c.env (JniCall.GetMethodID interfaceClass "<init>"
        "(JIII)V")] ++
    [CbEffect.env c.env (JniCall.NewObject interfaceClass method args),
      CbEffect.env c.env (JniCall.CallVoidMethod new_object cache.2)] ++
    detachIfAttached c.isAttached

/-- The callback `onServerErrorEvent`. -/
def onServerErrorEvent (gJavaVM : JavaVM) (env : JNIEnv) (st : Statics)
    (serverConnectionHandlerID : Nat) (errorMessage : String) (error : Nat)
    (returnCode : String) (extraMessage : String) : List CbEffect :=
  let c := connectVM gJavaVM
  let cache := st.Android_Event_ServerError
  let interfaceClass := env.GetObjectClass cache.1
  let method := env.GetMethodID interfaceClass "<init>"
    "(JLjava/lang/String;ILjava/lang/String;Ljava/lang/String;)V"
  let temp1 := newLocalString env errorMessage
  let temp2 := newLocalString env returnCode
  let temp3 := newLocalString env extraMessage
  let args := [CArg.uint64 serverConnectionHandlerID,
    CArg.jobject temp1,
    CArg.unsignedInt error,
    CArg.jobject temp2,
    CArg.jobject temp3]
  let new_object := env.NewObject interfaceClass method args
  c.effects ++
    [CbEffect.env c.env (JniCall.GetObjectClass cache.1),
      CbEffect.env c.env (JniCall.GetMethodID interfaceClass "<init>"
        "(JLjava/lang/String;ILjava/lang/String;Ljava/lang/String;)V")] ++
    newLocalStringCalls c.env env errorMessage ++
    newLocalStringCalls c.env env returnCode ++
    newLocalStringCalls c.env env extraMessage ++
    [CbEffect.env c.env (JniCall.NewObject interfaceClass method args),
      CbEffect.env c.env (JniCall.CallVoidMethod new_object cache.2)] ++
    detachIfAttached c.isAttached

/-- The callback `onUserLoggingMessageEvent`. -/
def onUserLoggingMessageEvent (gJavaVM : JavaVM) (env : JNIEnv) (st : Statics)
    (logMessage : String) (logLevel : Int) (logChannel : String) (logID : Nat)
    (logTime : String) (completeLogString : String) : List CbEffect :=
  let c := connectVM gJavaVM
  let cache := st.Android_Event_UserLoggingMessage
  let interfaceClass := env.GetObjectClass cache.1
  let method := env.GetMethodID interfaceClass "<init>"
    "(Ljava/lang/String;ILjava/lang/String;JLjava/lang/String;Ljava/lang/String;)V"
  let temp1 := newLocalString env logMessage
  let temp2 := newLocalString env logChannel
  let temp3 := newLocalString env logTime
  let temp4 := newLocalString env completeLogString
  let args := [CArg.jobject temp1,
    CArg.int logLevel,
    CArg.jobject temp2,
    CArg.uint64 logID,
    CArg.jobject temp3,
    CArg.jobject temp4]
  let new_object := env.NewObject interfaceClass method args
  c.effects ++
    [CbEffect.env c.env (JniCall.GetObjectClass cache.1),
      CbEffect.env c.env (JniCall.GetMethodID interfaceClass "<init>"
        "(Ljava/lang/String;ILjava/lang/String;JLjava/lang/String;Ljava/lang/String;)V")] ++
    newLocalStringCalls c.env env logMessage ++
    newLocalStringCalls c.env env logChannel ++
    newLocalStringCalls c.env env logTime ++
    newLocalStringCalls c.env env completeLogString ++
    [CbEffect.env c.env (JniCall.NewObject interfaceClass method args),
      CbEffect.env c.env (JniCall.CallVoidMethod new_object cache.2)] ++
    detachIfAttached c.isAttached

/-! ## Loading and initialisation -/

/-- The function `initClassHelper`: the values of `*objptr` and `*fire_method_id` after the
call, given their values before it (`fire_method_id` is `none` when the null pointer is passed
for it), and the calls made. -/
def initClassHelper (env : JNIEnv) (path : String) (objptr : Nat)
    (fire_method_id : Option Nat) : (Nat × Option Nat) × List CbEffect :=
  let cls := env.FindClass path
  if cls = 0 then
    ((objptr, fire_method_id),
      [CbEffect.env true (JniCall.FindClass path),
        CbEffect.LOGE ("initClassHelper: failed to get " ++ path ++ " class reference")])
  else
    let constr := env.GetMethodID cls "<init>" "()V"
    if constr = 0 then
      ((objptr, fire_method_id),
        [CbEffect.env true (JniCall.FindClass path),
          CbEffect.env true (JniCall.GetMethodID cls "<init>" "()V"),
          CbEffect.LOGE ("initClassHelper: failed to get " ++ path ++ " constructor")])
    else
      let obj := env.NewObject cls constr []
      if obj = 0 then
        ((objptr, fire_method_id),
          [CbEffect.env true (JniCall.FindClass path),
            CbEffect.env true (JniCall.GetMethodID cls "<init>" "()V"),
            CbEffect.env true (JniCall.NewObject cls constr []),
            CbEffect.LOGE ("initClassHelper: failed to create a " ++ path ++ " object")])
      else
        match fire_method_id with
        | none =>
          ((env.NewGlobalRef obj, none),
            [CbEffect.env true (JniCall.FindClass path),
              CbEffect.env true (JniCall.GetMethodID cls "<init>" "()V"),
              CbEffect.env true (JniCall.NewObject cls constr []),
              CbEffect.env true (JniCall.NewGlobalRef obj)])
        | some _ =>
          ((env.NewGlobalRef obj, some (env.GetMethodID cls "Post" "()V")),
            [CbEffect.env true (JniCall.FindClass path),
              CbEffect.env true (JniCall.GetMethodID cls "<init>" "()V"),
              CbEffect.env true (JniCall.NewObject cls constr []),
              CbEffect.env true (JniCall.NewGlobalRef obj),
              CbEffect.env true (JniCall.GetMethodID cls "Post" "()V")] ++
            (if env.GetMethodID cls "Post" "()V" = 0 then
              [CbEffect.LOGE ("initClassHelper: failed to get " ++ path ++ " post method")]
            else []))

/-- A call `initClassHelper(env, path, &pair.first, &pair.second)`: the pair afterwards. -/
def initPair (env : JNIEnv) (path : String) (pair : Nat × Nat) : Nat × Nat :=
  ((initClassHelper env path pair.1 (some pair.2)).1.1,
    ((initClassHelper env path pair.1 (some pair.2)).1.2).getD pair.2)

/-- A call `initClassHelper(env, path, &pair.first, &pair.second)`: the calls made. -/
def initPairCalls (env : JNIEnv) (path : String) (pair : Nat × Nat) : List CbEffect :=
  (initClassHelper env path pair.1 (some pair.2)).2

/-- The result of `JNI_OnLoad`. -/
structure Loaded where
  ret : Int
  statics : Statics
  effects : List CbEffect
  deriving DecidableEq

/-- The function `JNI_OnLoad`. -/
def JNI_OnLoad (vm : JavaVM) (env : JNIEnv) (st : Statics) : Loaded :=
  if vm.GetEnv ≠ JNI_OK then
    { ret := -1, statics := st,
      effects := [CbEffect.LOGD "Loaded ABI", CbEffect.LOGI "JNI_OnLoad called",
        CbEffect.vm VmCall.GetEnv,
        CbEffect.LOGE "Failed to get the environment using GetEnv()"] }
  else
    { ret := JNI_VERSION_1_6
      statics :=
        { StringClass := (initClassHelper env "java/lang/String" st.StringClass none).1.1
          Android_Event_ConnectStatusChange :=
            initPair env "com/teamspeak/ts3sdkclient/ts3sdk/events/ConnectStatusChange"
              st.Android_Event_ConnectStatusChange
          Android_Event_NewChannel :=
            initPair env "com/teamspeak/ts3sdkclient/ts3sdk/events/NewChannel"
              st.Android_Event_NewChannel
          Android_Event_NewChannelCreated :=
            initPair env "com/teamspeak/ts3sdkclient/ts3sdk/events/NewChannelCreated"
              st.Android_Event_NewChannelCreated
          Android_Event_DelChannel :=
            initPair env "com/teamspeak/ts3sdkclient/ts3sdk/events/DelChannel"
              st.Android_Event_DelChannel
          Android_Event_ClientMove :=
            initPair env "com/teamspeak/ts3sdkclient/ts3sdk/events/ClientMove"
              st.Android_Event_ClientMove
          Android_Event_ClientMoveSubscription :=
            initPair env "com/teamspeak/ts3sdkclient/ts3sdk/events/ClientMoveSubscription"
              st.Android_Event_ClientMoveSubscription
          Android_Event_ClientMoveTimeout :=
            initPair env "com/teamspeak/ts3sdkclient/ts3sdk/events/ClientMoveTimeout"
              st.Android_Event_ClientMoveTimeout
          Android_Event_ClientMoveMoved :=
            initPair env "com/teamspeak/ts3sdkclient/ts3sdk/events/ClientMoveMoved"
              st.Android_Event_ClientMoveMoved
          Android_Event_TalkStatusChange :=
            initPair env "com/teamspeak/ts3sdkclient/ts3sdk/events/TalkStatusChange"
              st.Android_Event_TalkStatusChange
          Android_Event_ServerError :=
            initPair env "com/teamspeak/ts3sdkclient/ts3sdk/events/ServerError"
              st.Android_Event_ServerError
          Android_Event_UserLoggingMessage :=
            initPair env "com/teamspeak/ts3sdkclient/ts3sdk/events/UserLoggingMessage"
              st.Android_Event_UserLoggingMessage }
      effects :=
        [CbEffect.LOGD "Loaded ABI", CbEffect.LOGI "JNI_OnLoad called",
          CbEffect.vm VmCall.GetEnv, CbEffect.env true JniCall.GetJavaVM] ++
        (initClassHelper env "java/lang/String" st.StringClass none).2 ++
        initPairCalls env "com/teamspeak/ts3sdkclient/ts3sdk/events/ConnectStatusChange"
          st.Android_Event_ConnectStatusChange ++
        initPairCalls env "com/teamspeak/ts3sdkclient/ts3sdk/events/NewChannel"
          st.Android_Event_NewChannel ++
        initPairCalls env "com/teamspeak/ts3sdkclient/ts3sdk/events/NewChannelCreated"
          st.Android_Event_NewChannelCreated ++
        initPairCalls env "com/teamspeak/ts3sdkclient/ts3sdk/events/DelChannel"
          st.Android_Event_DelChannel ++
        initPairCalls env "com/teamspeak/ts3sdkclient/ts3sdk/events/ClientMove"
          st.Android_Event_ClientMove ++
        initPairCalls env "com/teamspeak/ts3sdkclient/ts3sdk/events/ClientMoveSubscription"
          st.Android_Event_ClientMoveSubscription ++
        initPairCalls env "com/teamspeak/ts3sdkclient/ts3sdk/events/ClientMoveTimeout"
          st.Android_Event_ClientMoveTimeout ++
        initPairCalls env "com/teamspeak/ts3sdkclient/ts3sdk/events/ClientMoveMoved"
          st.Android_Event_ClientMoveMoved ++
        initPairCalls env "com/teamspeak/ts3sdkclient/ts3sdk/events/TalkStatusChange"
          st.Android_Event_TalkStatusChange ++
        initPairCalls env "com/teamspeak/ts3sdkclient/ts3sdk/events/ServerError"
          st.Android_Event_ServerError ++
        initPairCalls env "com/teamspeak/ts3sdkclient/ts3sdk/events/UserLoggingMessage"
          st.Android_Event_UserLoggingMessage ++
        [CbEffect.LOGD "JNI_OnLoad done."] }

/-- Modelled from the spec: the engine's table of callback function pointers (`struct
ClientUIFunctions` of `teamspeak/clientlib.h`, not among the sources), reduced to the slots of
the eleven event kinds; `none` is the null pointer. -/
structure ClientUIFunctions where
  onConnectStatusChangeEvent :
    Option (JavaVM → JNIEnv → Statics → Nat → Int → Nat → List CbEffect)
  onNewChannelEvent : Option (JavaVM → JNIEnv → Statics → Nat → Nat → Nat → List CbEffect)
  onNewChannelCreatedEvent :
    Option (JavaVM → JNIEnv → Statics → Nat → Nat → Nat → Nat → String → String → List CbEffect)
  onDelChannelEvent :
    Option (JavaVM → JNIEnv → Statics → Nat → Nat → Nat → String → String → List CbEffect)
  onClientMoveEvent :
    Option (JavaVM → JNIEnv → Statics → Nat → Nat → Nat → Nat → Int → String → List CbEffect)
  onClientMoveSubscriptionEvent :
    Option (JavaVM → JNIEnv → Statics → Nat → Nat → Nat → Nat → Int → List CbEffect)
  onClientMoveTimeoutEvent :
    Option (JavaVM → JNIEnv → Statics → Nat → Nat → Nat → Nat → Int → String → List CbEffect)
  onClientMoveMovedEvent :
    Option (JavaVM → JNIEnv → Statics → Nat → Nat → Nat → Nat → Int → Nat → String → String → String → List CbEffect)
  onTalkStatusChangeEvent :
    Option (JavaVM → JNIEnv → Statics → Nat → Int → Int → Nat → List CbEffect)
  onServerErrorEvent :
    Option (JavaVM → JNIEnv → Statics → Nat → String → Nat → String → String → List CbEffect)
  onUserLoggingMessageEvent :
    Option (JavaVM → JNIEnv → Statics → String → Int → String → Nat → String → String → List CbEffect)

/-- The table after `memset(&clUIFuncs, 0, sizeof(struct ClientUIFunctions))`. -/
def zeroClientUIFunctions : ClientUIFunctions where
  onConnectStatusChangeEvent := none
  onNewChannelEvent := none
  onNewChannelCreatedEvent := none
  onDelChannelEvent := none
  onClientMoveEvent := none
  onClientMoveSubscriptionEvent := none
  onClientMoveTimeoutEvent := none
  onClientMoveMovedEvent := none
  onTalkStatusChangeEvent := none
  onServerErrorEvent := none
  onUserLoggingMessageEvent := none

/-- The result of `init`: the value returned, the table handed to `ts3client_initClientLib`,
and the calls made. -/
structure Initialised where
  ret : Int
  clUIFuncs : ClientUIFunctions
  effects : List Effect

/-- The table `init` builds: every slot cleared, then the eleven assignments. -/
def initTable : ClientUIFunctions :=
  { zeroClientUIFunctions with
    onConnectStatusChangeEvent := some onConnectStatusChangeEvent
    onNewChannelEvent := some onNewChannelEvent
    onNewChannelCreatedEvent := some onNewChannelCreatedEvent
    onDelChannelEvent := some onDelChannelEvent
    onClientMoveEvent := some onClientMoveEvent
    onClientMoveSubscriptionEvent := some onClientMoveSubscriptionEvent
    onClientMoveTimeoutEvent := some onClientMoveTimeoutEvent
    onClientMoveMovedEvent := some onClientMoveMovedEvent
    onTalkStatusChangeEvent := some onTalkStatusChangeEvent
    onServerErrorEvent := some onServerErrorEvent
    onUserLoggingMessageEvent := some onUserLoggingMessageEvent }

/-- The function `init`. -/
def init (eng : Engine) (native_lib_path : String) : Initialised :=
  let error := eng.ts3client_initClientLib native_lib_path
  { ret := toJint error
    clUIFuncs := initTable
    effects :=
      [Effect.engine (EngineCall.initClientLib native_lib_path)] ++
      (if error ≠ ERROR_ok then
        reportError eng error "Error initializing clientlib: " none
      else []) }

/-! ## Event kinds, raised events and reading a callback trace -/

/-- The eleven event kinds. -/
inductive EventKind
  | ConnectStatusChange
  | NewChannel
  | NewChannelCreated
  | DelChannel
  | ClientMove
  | ClientMoveSubscription
  | ClientMoveTimeout
  | ClientMoveMoved
  | TalkStatusChange
  | ServerError
  | UserLoggingMessage
  deriving DecidableEq, Repr

/-- All event kinds, in the order of the source. -/
def EventKind.all : List EventKind :=
  [EventKind.ConnectStatusChange,
    EventKind.NewChannel,
    EventKind.NewChannelCreated,
    EventKind.DelChannel,
    EventKind.ClientMove,
    EventKind.ClientMoveSubscription,
    EventKind.ClientMoveTimeout,
    EventKind.ClientMoveMoved,
    EventKind.TalkStatusChange,
    EventKind.ServerError,
    EventKind.UserLoggingMessage]

/-- The Java class of the events of a kind. -/
def EventKind.classPath : EventKind → String
  | EventKind.ConnectStatusChange => "com/teamspeak/ts3sdkclient/ts3sdk/events/ConnectStatusChange"
  | EventKind.NewChannel => "com/teamspeak/ts3sdkclient/ts3sdk/events/NewChannel"
  | EventKind.NewChannelCreated => "com/teamspeak/ts3sdkclient/ts3sdk/events/NewChannelCreated"
  | EventKind.DelChannel => "com/teamspeak/ts3sdkclient/ts3sdk/events/DelChannel"
  | EventKind.ClientMove => "com/teamspeak/ts3sdkclient/ts3sdk/events/ClientMove"
  | EventKind.ClientMoveSubscription => "com/teamspeak/ts3sdkclient/ts3sdk/events/ClientMoveSubscription"
  | EventKind.ClientMoveTimeout => "com/teamspeak/ts3sdkclient/ts3sdk/events/ClientMoveTimeout"
  | EventKind.ClientMoveMoved => "com/teamspeak/ts3sdkclient/ts3sdk/events/ClientMoveMoved"
  | EventKind.TalkStatusChange => "com/teamspeak/ts3sdkclient/ts3sdk/events/TalkStatusChange"
  | EventKind.ServerError => "com/teamspeak/ts3sdkclient/ts3sdk/events/ServerError"
  | EventKind.UserLoggingMessage => "com/teamspeak/ts3sdkclient/ts3sdk/events/UserLoggingMessage"

/-- The static pair of an event kind. -/
def Statics.entry (st : Statics) : EventKind → Nat × Nat
  | EventKind.ConnectStatusChange => st.Android_Event_ConnectStatusChange
  | EventKind.NewChannel => st.Android_Event_NewChannel
  | EventKind.NewChannelCreated => st.Android_Event_NewChannelCreated
  | EventKind.DelChannel => st.Android_Event_DelChannel
  | EventKind.ClientMove => st.Android_Event_ClientMove
  | EventKind.ClientMoveSubscription => st.Android_Event_ClientMoveSubscription
  | EventKind.ClientMoveTimeout => st.Android_Event_ClientMoveTimeout
  | EventKind.ClientMoveMoved => st.Android_Event_ClientMoveMoved
  | EventKind.TalkStatusChange => st.Android_Event_TalkStatusChange
  | EventKind.ServerError => st.Android_Event_ServerError
  | EventKind.UserLoggingMessage => st.Android_Event_UserLoggingMessage

/-- An event raised by the engine, with its native arguments. -/
inductive NativeEvent
  | ConnectStatusChange
      (serverConnectionHandlerID : Nat) (newStatus : Int) (errorNumber : Nat)
  | NewChannel
      (serverConnectionHandlerID : Nat) (channelID : Nat) (channelParentID : Nat)
  | NewChannelCreated
      (serverConnectionHandlerID : Nat) (channelID : Nat) (channelParentID : Nat)
      (invokerID : Nat) (invokerName : String) (invokerUniqueIdentifier : String)
  | DelChannel
      (serverConnectionHandlerID : Nat) (channelID : Nat) (invokerID : Nat)
      (invokerName : String) (invokerUniqueIdentifier : String)
  | ClientMove
      (serverConnectionHandlerID : Nat) (clientID : Nat) (oldChannelID : Nat)
      (newChannelID : Nat) (visibility : Int) (moveMessage : String)
  | ClientMoveSubscription
      (serverConnectionHandlerID : Nat) (clientID : Nat) (oldChannelID : Nat)
      (newChannelID : Nat) (visibility : Int)
  | ClientMoveTimeout
      (serverConnectionHandlerID : Nat) (clientID : Nat) (oldChannelID : Nat)
      (newChannelID : Nat) (visibility : Int) (timeoutMessage : String)
  | ClientMoveMoved
      (serverConnectionHandlerID : Nat) (clientID : Nat) (oldChannelID : Nat)
      (newChannelID : Nat) (visibility : Int) (moverID : Nat) (moverName : String)
      (moverUniqueIdentifier : String) (moveMessage : String)
  | TalkStatusChange
      (serverConnectionHandlerID : Nat) (status : Int) (isReceivedWhisper : Int)
      (clientID : Nat)
  | ServerError
      (serverConnectionHandlerID : Nat) (errorMessage : String) (error : Nat)
      (returnCode : String) (extraMessage : String)
  | UserLoggingMessage
      (logMessage : String) (logLevel : Int) (logChannel : String) (logID : Nat)
      (logTime : String) (completeLogString : String)
  deriving DecidableEq, Repr

/-- The kind of a raised event. -/
def NativeEvent.kind : NativeEvent → EventKind
  | NativeEvent.ConnectStatusChange _ _ _ => EventKind.ConnectStatusChange
  | NativeEvent.NewChannel _ _ _ => EventKind.NewChannel
  | NativeEvent.NewChannelCreated _ _ _ _ _ _ => EventKind.NewChannelCreated
  | NativeEvent.DelChannel _ _ _ _ _ => EventKind.DelChannel
  | NativeEvent.ClientMove _ _ _ _ _ _ => EventKind.ClientMove
  | NativeEvent.ClientMoveSubscription _ _ _ _ _ => EventKind.ClientMoveSubscription
  | NativeEvent.ClientMoveTimeout _ _ _ _ _ _ => EventKind.ClientMoveTimeout
  | NativeEvent.ClientMoveMoved _ _ _ _ _ _ _ _ _ => EventKind.ClientMoveMoved
  | NativeEvent.TalkStatusChange _ _ _ _ => EventKind.TalkStatusChange
  | NativeEvent.ServerError _ _ _ _ _ => EventKind.ServerError
  | NativeEvent.UserLoggingMessage _ _ _ _ _ _ => EventKind.UserLoggingMessage

/-- Modelled from the spec: the engine raises an event by invoking, on its own thread, the
callback found in the slot of the event's kind, with the native arguments; nothing is run when
the slot is null. -/
def raise (table : ClientUIFunctions) (gJavaVM : JavaVM) (env : JNIEnv) (st : Statics) :
    NativeEvent → Option (List CbEffect)
  | NativeEvent.ConnectStatusChange a1 a2 a3 =>
      (table.onConnectStatusChangeEvent).map (fun f => f gJavaVM env st a1 a2 a3)
  | NativeEvent.NewChannel a1 a2 a3 =>
      (table.onNewChannelEvent).map (fun f => f gJavaVM env st a1 a2 a3)
  | NativeEvent.NewChannelCreated a1 a2 a3 a4 a5 a6 =>
      (table.onNewChannelCreatedEvent).map (fun f => f gJavaVM env st a1 a2 a3 a4 a5 a6)
  | NativeEvent.DelChannel a1 a2 a3 a4 a5 =>
      (table.onDelChannelEvent).map (fun f => f gJavaVM env st a1 a2 a3 a4 a5)
  | NativeEvent.ClientMove a1 a2 a3 a4 a5 a6 =>
      (table.onClientMoveEvent).map (fun f => f gJavaVM env st a1 a2 a3 a4 a5 a6)
  | NativeEvent.ClientMoveSubscription a1 a2 a3 a4 a5 =>
      (table.onClientMoveSubscriptionEvent).map (fun f => f gJavaVM env st a1 a2 a3 a4 a5)
  | NativeEvent.ClientMoveTimeout a1 a2 a3 a4 a5 a6 =>
      (table.onClientMoveTimeoutEvent).map (fun f => f gJavaVM env st a1 a2 a3 a4 a5 a6)
  | NativeEvent.ClientMoveMoved a1 a2 a3 a4 a5 a6 a7 a8 a9 =>
      (table.onClientMoveMovedEvent).map (fun f => f gJavaVM env st a1 a2 a3 a4 a5 a6 a7 a8 a9)
  | NativeEvent.TalkStatusChange a1 a2 a3 a4 =>
      (table.onTalkStatusChangeEvent).map (fun f => f gJavaVM env st a1 a2 a3 a4)
  | NativeEvent.ServerError a1 a2 a3 a4 a5 =>
      (table.onServerErrorEvent).map (fun f => f gJavaVM env st a1 a2 a3 a4 a5)
  | NativeEvent.UserLoggingMessage a1 a2 a3 a4 a5 a6 =>
      (table.onUserLoggingMessageEvent).map (fun f => f gJavaVM env st a1 a2 a3 a4 a5 a6)

/-- The callback named after the kind of the event, applied to the native arguments. -/
def NativeEvent.callback (gJavaVM : JavaVM) (env : JNIEnv) (st : Statics) :
    NativeEvent → List CbEffect
  | NativeEvent.ConnectStatusChange a1 a2 a3 =>
      onConnectStatusChangeEvent gJavaVM env st a1 a2 a3
  | NativeEvent.NewChannel a1 a2 a3 =>
      onNewChannelEvent gJavaVM env st a1 a2 a3
  | NativeEvent.NewChannelCreated a1 a2 a3 a4 a5 a6 =>
      onNewChannelCreatedEvent gJavaVM env st a1 a2 a3 a4 a5 a6
  | NativeEvent.DelChannel a1 a2 a3 a4 a5 =>
      onDelChannelEvent gJavaVM env st a1 a2 a3 a4 a5
  | NativeEvent.ClientMove a1 a2 a3 a4 a5 a6 =>
      onClientMoveEvent gJavaVM env st a1 a2 a3 a4 a5 a6
  | NativeEvent.ClientMoveSubscription a1 a2 a3 a4 a5 =>
      onClientMoveSubscriptionEvent gJavaVM env st a1 a2 a3 a4 a5
  | NativeEvent.ClientMoveTimeout a1 a2 a3 a4 a5 a6 =>
      onClientMoveTimeoutEvent gJavaVM env st a1 a2 a3 a4 a5 a6
  | NativeEvent.ClientMoveMoved a1 a2 a3 a4 a5 a6 a7 a8 a9 =>
      onClientMoveMovedEvent gJavaVM env st a1 a2 a3 a4 a5 a6 a7 a8 a9
  | NativeEvent.TalkStatusChange a1 a2 a3 a4 =>
      onTalkStatusChangeEvent gJavaVM env st a1 a2 a3 a4
  | NativeEvent.ServerError a1 a2 a3 a4 a5 =>
      onServerErrorEvent gJavaVM env st a1 a2 a3 a4 a5
  | NativeEvent.UserLoggingMessage a1 a2 a3 a4 a5 a6 =>
      onUserLoggingMessageEvent gJavaVM env st a1 a2 a3 a4 a5 a6

/-- The number of `DetachCurrentThread` calls among the effects. -/
def detachCount : List CbEffect → Nat
  | [] => 0
  | CbEffect.vm VmCall.DetachCurrentThread :: t => detachCount t + 1
  | _ :: t => detachCount t

/-- The number of `AttachCurrentThread` calls among the effects. -/
def attachCount : List CbEffect → Nat
  | [] => 0
  | CbEffect.vm VmCall.AttachCurrentThread :: t => attachCount t + 1
  | _ :: t => attachCount t

/-- The signatures of the constructors looked up, in order. -/
def constructorSignatures : List CbEffect → List String
  | [] => []
  | CbEffect.env _ (JniCall.GetMethodID _ name sig) :: t =>
      if name = "<init>" then sig :: constructorSignatures t else constructorSignatures t
  | _ :: t => constructorSignatures t

/-- The argument lists of the `NewObject` calls, in order. -/
def newObjectArgs : List CbEffect → List (List CArg)
  | [] => []
  | CbEffect.env _ (JniCall.NewObject _ _ args) :: t => args :: newObjectArgs t
  | _ :: t => newObjectArgs t

/-- The fields a constructor of signature `sig` receives from an argument list; `none` when
the arguments do not fit the signature. -/
def fieldsReceived (sig : String) (args : List CArg) : Option (List JValue) :=
  (parseSignature sig).bind (fun ts => readArgs ts args)

/-- The field lists of the event objects a callback constructs: each `NewObject` argument list
read against the constructor signature looked up for it. -/
def eventObjects (t : List CbEffect) : List (Option (List JValue)) :=
  List.zipWith fieldsReceived (constructorSignatures t) (newObjectArgs t)

/-- The calls made through `env`, each with the flag telling whether `env` was valid. -/
def envCalls : List CbEffect → List (Bool × JniCall)
  | [] => []
  | CbEffect.env valid c :: t => (valid, c) :: envCalls t
  | _ :: t => envCalls t

/-- The class paths passed to `FindClass`, in order. -/
def findClassCalls : List CbEffect → List String
  | [] => []
  | CbEffect.env _ (JniCall.FindClass path) :: t => path :: findClassCalls t
  | _ :: t => findClassCalls t

/-- The non-null slots of a callback table, by event kind. -/
def ClientUIFunctions.installed (table : ClientUIFunctions) : List EventKind :=
    (if (table.onConnectStatusChangeEvent).isSome then [EventKind.ConnectStatusChange] else []) ++
    (if (table.onNewChannelEvent).isSome then [EventKind.NewChannel] else []) ++
    (if (table.onNewChannelCreatedEvent).isSome then [EventKind.NewChannelCreated] else []) ++
    (if (table.onDelChannelEvent).isSome then [EventKind.DelChannel] else []) ++
    (if (table.onClientMoveEvent).isSome then [EventKind.ClientMove] else []) ++
    (if (table.onClientMoveSubscriptionEvent).isSome then [EventKind.ClientMoveSubscription] else []) ++
    (if (table.onClientMoveTimeoutEvent).isSome then [EventKind.ClientMoveTimeout] else []) ++
    (if (table.onClientMoveMovedEvent).isSome then [EventKind.ClientMoveMoved] else []) ++
    (if (table.onTalkStatusChangeEvent).isSome then [EventKind.TalkStatusChange] else []) ++
    (if (table.onServerErrorEvent).isSome then [EventKind.ServerError] else []) ++
    (if (table.onUserLoggingMessageEvent).isSome then [EventKind.UserLoggingMessage] else [])

/-- A thread that already has a runtime handle. -/
def attachedThread : JavaVM where
  GetEnv := 0
  AttachCurrentThread := 0

/-- A native thread without a runtime handle, which the runtime accepts to attach. -/
def nativeThread : JavaVM where
  GetEnv := -2
  AttachCurrentThread := 0

/-- A native thread without a runtime handle, which the runtime fails to attach. -/
def unattachableThread : JavaVM where
  GetEnv := -2
  AttachCurrentThread := -1

/-- A runtime in which every lookup and every allocation succeeds. -/
def sampleEnv : JNIEnv where
  FindClass := fun _ => 11
  GetObjectClass := fun _ => 12
  GetMethodID := fun _ name _ => if name = "Post" then 21 else 20
  NewObject := fun _ _ _ => 30
  NewGlobalRef := fun obj => obj + 1
  NewStringUTF := fun _ => 40
  NewLocalRef := fun ref => ref + 1

/-- A runtime in which the method `Post` is not found; everything else succeeds. -/
def envWithoutPost : JNIEnv where
  FindClass := fun _ => 11
  GetObjectClass := fun _ => 12
  GetMethodID := fun _ name _ => if name = "Post" then 0 else 20
  NewObject := fun _ _ _ => 30
  NewGlobalRef := fun obj => obj + 1
  NewStringUTF := fun _ => 40
  NewLocalRef := fun ref => ref + 1

/-- A runtime in which no class is found. -/
def envWithoutClasses : JNIEnv where
  FindClass := fun _ => 0
  GetObjectClass := fun _ => 0
  GetMethodID := fun _ _ _ => 0
  NewObject := fun _ _ _ => 0
  NewGlobalRef := fun obj => obj
  NewStringUTF := fun _ => 40
  NewLocalRef := fun ref => ref


/-! ## Reading the string calls of an outcome -/

/-- The number of `GetStringUTFChars` calls for the string `s` among the effects. -/
def obtainedChars (s : String) : List Effect → Nat
  | [] => 0
  | Effect.GetStringUTFChars s' :: t =>
      if s' = s then obtainedChars s t + 1 else obtainedChars s t
  | _ :: t => obtainedChars s t

/-- The number of `ReleaseStringUTFChars` calls for the string `s` among the effects. -/
def releasedChars (s : String) : List Effect → Nat
  | [] => 0
  | Effect.ReleaseStringUTFChars s' :: t =>
      if s' = s then releasedChars s t + 1 else releasedChars s t
  | _ :: t => releasedChars s t

/-! ## Lemmas on the machine arithmetic of the size check -/

theorem sizeMul_toSizeT_of_nonneg {n : Int} (hn : isJint n) (h0 : 0 ≤ n) :
    ((sizeMul (toSizeT n) sizeofShort : Nat) : Int) = n * 2 := by
  unfold isJint at hn
  unfold sizeMul toSizeT sizeofShort SIZE_MODULUS
  omega

theorem sizeMul_toSizeT_of_neg {n : Int} (hn : isJint n) (h0 : n < 0) :
    ((sizeMul (toSizeT n) sizeofShort : Nat) : Int) = 2 ^ 64 + n * 2 := by
  unfold isJint at hn
  unfold sizeMul toSizeT sizeofShort SIZE_MODULUS
  omega

theorem sizeMul_gt_of_product_gt {n : Int} {C : Nat} (hn : isJint n) (h : n * 2 > (C : Int)) :
    sizeMul (toSizeT n) sizeofShort > C := by
  have h0 : 0 ≤ n := by omega
  have := sizeMul_toSizeT_of_nonneg hn h0
  omega

/-! ## Lemmas on the cache operations -/

namespace ByteBufferCache

theorem find_emplace_of_none {m : ByteBufferCache} {k : String} (v : Nat × Nat)
    (h : m.find k = none) : (m.emplace k v).find k = some v := by
  unfold find at h
  unfold emplace find
  rw [h]
  exact AList.lookup_insert m

theorem emplace_of_some {m : ByteBufferCache} {k : String} {e : Nat × Nat} (v : Nat × Nat)
    (h : m.find k = some e) : m.emplace k v = m := by
  unfold find at h
  unfold emplace
  rw [h]

theorem find_emplace_ne {m : ByteBufferCache} {k k' : String} (v : Nat × Nat)
    (h : k' ≠ k) : (m.emplace k v).find k' = m.find k' := by
  unfold emplace find
  cases hk : AList.lookup k m with
  | some e => rfl
  | none => exact AList.lookup_insert_ne h

theorem find_findErase_self (m : ByteBufferCache) (k : String) :
    (m.findErase k).find k = none := by
  unfold findErase find
  cases hk : AList.lookup k m with
  | some e => exact AList.lookup_erase k m
  | none => exact hk

theorem findErase_of_none {m : ByteBufferCache} {k : String} (h : m.find k = none) :
    m.findErase k = m := by
  unfold find at h
  unfold findErase
  rw [h]

theorem find_findErase_ne {m : ByteBufferCache} {k k' : String} (h : k' ≠ k) :
    (m.findErase k).find k' = m.find k' := by
  unfold findErase find
  cases hk : AList.lookup k m with
  | some e => exact AList.lookup_erase_ne h
  | none => rfl

end ByteBufferCache

/-! ## The three exits of the two sample calls -/

theorem acquire_of_none (E : PublicErrors) (eng : Engine) {g : Globals} {deviceID : String}
    (samples : Int) (h : g.playByteBufferCache.find deviceID = none) :
    Java_com_teamspeak_ts3sdkclient_ts3sdk_Native_ts3client_1acquireCustomPlaybackData
        E eng g deviceID samples =
      { ret := toJint E.ERROR_parameter_invalid, globals := g,
        effects := [Effect.GetStringUTFChars deviceID] } := by
  unfold Java_com_teamspeak_ts3sdkclient_ts3sdk_Native_ts3client_1acquireCustomPlaybackData
  rw [h]

theorem acquire_of_too_large (E : PublicErrors) (eng : Engine) {g : Globals}
    {deviceID : String} {samples : Int} {C addr : Nat}
    (h : g.playByteBufferCache.find deviceID = some (C, addr))
    (hgt : sizeMul (toSizeT samples) sizeofShort > C) :
    Java_com_teamspeak_ts3sdkclient_ts3sdk_Native_ts3client_1acquireCustomPlaybackData
        E eng g deviceID samples =
      { ret := toJint E.ERROR_parameter_invalid_count, globals := g,
        effects := [Effect.GetStringUTFChars deviceID] } := by
  unfold Java_com_teamspeak_ts3sdkclient_ts3sdk_Native_ts3client_1acquireCustomPlaybackData
  rw [h]
  simp only [if_pos hgt]

theorem acquire_of_fits (E : PublicErrors) (eng : Engine) {g : Globals}
    {deviceID : String} {samples : Int} {C addr : Nat}
    (h : g.playByteBufferCache.find deviceID = some (C, addr))
    (hle : sizeMul (toSizeT samples) sizeofShort ≤ C) :
    Java_com_teamspeak_ts3sdkclient_ts3sdk_Native_ts3client_1acquireCustomPlaybackData
        E eng g deviceID samples =
      { ret := toJint (eng.ts3client_acquireCustomPlaybackData deviceID addr samples),
        globals := g,
        effects :=
          [Effect.GetStringUTFChars deviceID,
            Effect.engine (EngineCall.acquireCustomPlaybackData deviceID addr samples),
            Effect.ReleaseStringUTFChars deviceID] } := by
  unfold Java_com_teamspeak_ts3sdkclient_ts3sdk_Native_ts3client_1acquireCustomPlaybackData
  rw [h]
  simp only [if_neg (Nat.not_lt.mpr hle)]

theorem process_of_none (E : PublicErrors) (eng : Engine) {g : Globals} {deviceID : String}
    (samples : Int) (h : g.capByteBufferCache.find deviceID = none) :
    Java_com_teamspeak_ts3sdkclient_ts3sdk_Native_ts3client_1processCustomCaptureData
        E eng g deviceID samples =
      { ret := toJint E.ERROR_parameter_invalid, globals := g,
        effects := [Effect.GetStringUTFChars deviceID] } := by
  unfold Java_com_teamspeak_ts3sdkclient_ts3sdk_Native_ts3client_1processCustomCaptureData
  rw [h]

theorem process_of_too_large (E : PublicErrors) (eng : Engine) {g : Globals}
    {deviceID : String} {samples : Int} {C addr : Nat}
    (h : g.capByteBufferCache.find deviceID = some (C, addr))
    (hgt : sizeMul (toSizeT samples) sizeofShort > C) :
    Java_com_teamspeak_ts3sdkclient_ts3sdk_Native_ts3client_1processCustomCaptureData
        E eng g deviceID samples =
      { ret := toJint E.ERROR_parameter_invalid_count, globals := g,
        effects := [Effect.GetStringUTFChars deviceID] } := by
  unfold Java_com_teamspeak_ts3sdkclient_ts3sdk_Native_ts3client_1processCustomCaptureData
  rw [h]
  simp only [if_pos hgt]

theorem process_of_fits (E : PublicErrors) (eng : Engine) {g : Globals}
    {deviceID : String} {samples : Int} {C addr : Nat}
    (h : g.capByteBufferCache.find deviceID = some (C, addr))
    (hle : sizeMul (toSizeT samples) sizeofShort ≤ C) :
    Java_com_teamspeak_ts3sdkclient_ts3sdk_Native_ts3client_1processCustomCaptureData
        E eng g deviceID samples =
      { ret := toJint (eng.ts3client_processCustomCaptureData deviceID addr samples),
        globals := g,
        effects :=
          [Effect.GetStringUTFChars deviceID,
            Effect.engine (EngineCall.processCustomCaptureData deviceID addr samples)]
          ++ (if eng.ts3client_processCustomCaptureData deviceID addr samples ≠ ERROR_ok then
                reportError eng (eng.ts3client_processCustomCaptureData deviceID addr samples)
                  "Failed to process capture data: " none
              else [])
          ++ [Effect.ReleaseStringUTFChars deviceID] } := by
  unfold Java_com_teamspeak_ts3sdkclient_ts3sdk_Native_ts3client_1processCustomCaptureData
  rw [h]
  simp only [if_neg (Nat.not_lt.mpr hle)]

theorem bufferCalls_append (l₁ l₂ : List Effect) :
    bufferCalls (l₁ ++ l₂) = bufferCalls l₁ ++ bufferCalls l₂ := by
  induction l₁ with
  | nil => rfl
  | cons a t ih =>
    cases a with
    | engine c => cases c <;> simp [bufferCalls, ih]
    | _ => simp [bufferCalls, ih]

theorem bufferCalls_reportError (eng : Engine) (error : Nat) (text : String)
    (fallback : Option String) : bufferCalls (reportError eng error text fallback) = [] := by
  unfold reportError
  split
  · rfl
  · cases fallback <;> rfl

/-! ## Validation of the sample count (claims C1 to C3) -/

/-- C1, counterexample to the claim as stated: the playback entry of "dev" has capacity 4 and
the sample count is -1, so the product -1 * 2 of the count and the sample width is at most the
capacity, and yet the call is answered `ERROR_parameter_invalid_count` and nothing is
forwarded to the engine: passing validation is not equivalent to `n * 2 ≤ C`. -/
theorem acquire_rejects_negative_count :
    (playOnly "dev" 4 100).playByteBufferCache.find "dev" = some (4, 100) ∧
    isJint (-1) ∧
    (-1 : Int) * 2 ≤ ((4 : Nat) : Int) ∧
    Java_com_teamspeak_ts3sdkclient_ts3sdk_Native_ts3client_1acquireCustomPlaybackData sampleErrors (constEngine 0) (playOnly "dev" 4 100) "dev" (-1) =
      { ret := toJint sampleErrors.ERROR_parameter_invalid_count,
        globals := playOnly "dev" 4 100,
        effects := [Effect.GetStringUTFChars "dev"] } ∧
    ¬ (engineCalls (Java_com_teamspeak_ts3sdkclient_ts3sdk_Native_ts3client_1acquireCustomPlaybackData sampleErrors (constEngine 0) (playOnly "dev" 4 100) "dev" (-1)).effects
          = [EngineCall.acquireCustomPlaybackData "dev" 100 (-1)]
        ↔ (-1 : Int) * 2 ≤ ((4 : Nat) : Int)) := by
  decide

/-- C1, amended: when device `D` has a playback entry of capacity `C`, a call with the 32-bit
sample count `n` is forwarded to the engine's acquire call exactly when the product the code
computes, `n` converted to an unsigned 64-bit number times 2 modulo `2 ^ 64`, is at most `C`.
For `n ≥ 0` that is `n * 2 ≤ C`; for `n < 0` it is `2 ^ 64 + n * 2 ≤ C`. Whenever `n * 2 > C`
the call returns `ERROR_parameter_invalid_count` and the engine is not invoked. -/
theorem acquire_forwards_iff_product_fits (E : PublicErrors) (eng : Engine) (g : Globals)
    (D : String) (C addr : Nat) (n : Int) (hn : isJint n)
    (hD : g.playByteBufferCache.find D = some (C, addr)) :
    (engineCalls (Java_com_teamspeak_ts3sdkclient_ts3sdk_Native_ts3client_1acquireCustomPlaybackData E eng g D n).effects = [EngineCall.acquireCustomPlaybackData D addr n]
      ↔ sizeMul (toSizeT n) sizeofShort ≤ C) ∧
    (0 ≤ n →
      (engineCalls (Java_com_teamspeak_ts3sdkclient_ts3sdk_Native_ts3client_1acquireCustomPlaybackData E eng g D n).effects = [EngineCall.acquireCustomPlaybackData D addr n]
        ↔ n * 2 ≤ (C : Int))) ∧
    (n < 0 →
      (engineCalls (Java_com_teamspeak_ts3sdkclient_ts3sdk_Native_ts3client_1acquireCustomPlaybackData E eng g D n).effects = [EngineCall.acquireCustomPlaybackData D addr n]
        ↔ 2 ^ 64 + n * 2 ≤ (C : Int))) ∧
    (n * 2 > (C : Int) →
      (Java_com_teamspeak_ts3sdkclient_ts3sdk_Native_ts3client_1acquireCustomPlaybackData E eng g D n).ret = toJint E.ERROR_parameter_invalid_count ∧
      engineCalls (Java_com_teamspeak_ts3sdkclient_ts3sdk_Native_ts3client_1acquireCustomPlaybackData E eng g D n).effects = []) := by
  have key : engineCalls (Java_com_teamspeak_ts3sdkclient_ts3sdk_Native_ts3client_1acquireCustomPlaybackData E eng g D n).effects
        = [EngineCall.acquireCustomPlaybackData D addr n]
      ↔ sizeMul (toSizeT n) sizeofShort ≤ C := by
    by_cases hle : sizeMul (toSizeT n) sizeofShort ≤ C
    · rw [acquire_of_fits E eng hD hle]
      simp [engineCalls, hle]
    · rw [acquire_of_too_large E eng hD (Nat.lt_of_not_le hle)]
      simp [engineCalls, hle]
  refine ⟨key, ?_, ?_, ?_⟩
  · intro h0
    rw [key]
    have := sizeMul_toSizeT_of_nonneg hn h0
    omega
  · intro h0
    rw [key]
    have := sizeMul_toSizeT_of_neg hn h0
    omega
  · intro hgt
    rw [acquire_of_too_large E eng hD (sizeMul_gt_of_product_gt hn hgt)]
    exact ⟨rfl, rfl⟩

/-- Witness of C1 (amended): capacity 4, two samples are forwarded. -/
theorem acquire_forwards_iff_product_fits_witness :
    isJint 2 ∧ (playOnly "dev" 4 100).playByteBufferCache.find "dev" = some (4, 100) ∧
    engineCalls (Java_com_teamspeak_ts3sdkclient_ts3sdk_Native_ts3client_1acquireCustomPlaybackData sampleErrors (constEngine 0) (playOnly "dev" 4 100) "dev" 2).effects
      = [EngineCall.acquireCustomPlaybackData "dev" 100 2] :=
  ⟨by decide, by decide,
    ((acquire_forwards_iff_product_fits sampleErrors (constEngine 0) (playOnly "dev" 4 100)
      "dev" 4 100 2 (by decide) (by decide)).2.1 (by decide)).mpr (by decide)⟩

/-- C2: a device without a playback entry makes the acquire call return
`ERROR_parameter_invalid`, and a device without a capture entry makes the submit call return
`ERROR_parameter_invalid`; the whole outcome is the same for every sample count and every
engine, and the engine is not called at all. -/
theorem unknown_device_is_rejected (E : PublicErrors) (eng : Engine) (g : Globals)
    (D : String) (n : Int) :
    (g.playByteBufferCache.find D = none →
      (Java_com_teamspeak_ts3sdkclient_ts3sdk_Native_ts3client_1acquireCustomPlaybackData E eng g D n).ret = toJint E.ERROR_parameter_invalid ∧
      engineCalls (Java_com_teamspeak_ts3sdkclient_ts3sdk_Native_ts3client_1acquireCustomPlaybackData E eng g D n).effects = [] ∧
      ∀ (eng' : Engine) (n' : Int), Java_com_teamspeak_ts3sdkclient_ts3sdk_Native_ts3client_1acquireCustomPlaybackData E eng' g D n' = Java_com_teamspeak_ts3sdkclient_ts3sdk_Native_ts3client_1acquireCustomPlaybackData E eng g D n) ∧
    (g.capByteBufferCache.find D = none →
      (Java_com_teamspeak_ts3sdkclient_ts3sdk_Native_ts3client_1processCustomCaptureData E eng g D n).ret = toJint E.ERROR_parameter_invalid ∧
      engineCalls (Java_com_teamspeak_ts3sdkclient_ts3sdk_Native_ts3client_1processCustomCaptureData E eng g D n).effects = [] ∧
      ∀ (eng' : Engine) (n' : Int), Java_com_teamspeak_ts3sdkclient_ts3sdk_Native_ts3client_1processCustomCaptureData E eng' g D n' = Java_com_teamspeak_ts3sdkclient_ts3sdk_Native_ts3client_1processCustomCaptureData E eng g D n) := by
  constructor
  · intro h
    refine ⟨?_, ?_, ?_⟩
    · rw [acquire_of_none E eng n h]
    · rw [acquire_of_none E eng n h]; rfl
    · intro eng' n'
      rw [acquire_of_none E eng n h, acquire_of_none E eng' n' h]
  · intro h
    refine ⟨?_, ?_, ?_⟩
    · rw [process_of_none E eng n h]
    · rw [process_of_none E eng n h]; rfl
    · intro eng' n'
      rw [process_of_none E eng n h, process_of_none E eng' n' h]

/-- Witness of C2: with both caches empty, "dev" is unknown in both directions. -/
theorem unknown_device_is_rejected_witness :
    emptyGlobals.playByteBufferCache.find "dev" = none ∧
    emptyGlobals.capByteBufferCache.find "dev" = none ∧
    (Java_com_teamspeak_ts3sdkclient_ts3sdk_Native_ts3client_1acquireCustomPlaybackData sampleErrors (constEngine 0) emptyGlobals "dev" 1).ret
      = toJint sampleErrors.ERROR_parameter_invalid ∧
    (Java_com_teamspeak_ts3sdkclient_ts3sdk_Native_ts3client_1processCustomCaptureData sampleErrors (constEngine 0) emptyGlobals "dev" 1).ret
      = toJint sampleErrors.ERROR_parameter_invalid :=
  ⟨by decide, by decide,
    ((unknown_device_is_rejected sampleErrors (constEngine 0) emptyGlobals "dev" 1).1
      (by decide)).1,
    ((unknown_device_is_rejected sampleErrors (constEngine 0) emptyGlobals "dev" 1).2
      (by decide)).1⟩

/-- C3: when device `D` has a capture entry of capacity `C` and the sample count times the
two bytes of a sample exceeds `C`, the submit call returns `ERROR_parameter_invalid_count`
and makes no engine call. -/
theorem process_rejects_oversized_request (E : PublicErrors) (eng : Engine) (g : Globals)
    (D : String) (C addr : Nat) (n : Int) (hn : isJint n)
    (hD : g.capByteBufferCache.find D = some (C, addr)) (hgt : n * 2 > (C : Int)) :
    (Java_com_teamspeak_ts3sdkclient_ts3sdk_Native_ts3client_1processCustomCaptureData E eng g D n).ret = toJint E.ERROR_parameter_invalid_count ∧
    engineCalls (Java_com_teamspeak_ts3sdkclient_ts3sdk_Native_ts3client_1processCustomCaptureData E eng g D n).effects = [] := by
  rw [process_of_too_large E eng hD (sizeMul_gt_of_product_gt hn hgt)]
  exact ⟨rfl, rfl⟩

/-- Witness of C3: capacity 4, three samples need six bytes. -/
theorem process_rejects_oversized_request_witness :
    isJint 3 ∧ (capOnly "dev" 4 100).capByteBufferCache.find "dev" = some (4, 100) ∧
    (3 : Int) * 2 > ((4 : Nat) : Int) ∧
    (Java_com_teamspeak_ts3sdkclient_ts3sdk_Native_ts3client_1processCustomCaptureData sampleErrors (constEngine 0) (capOnly "dev" 4 100) "dev" 3).ret
      = toJint sampleErrors.ERROR_parameter_invalid_count ∧
    engineCalls (Java_com_teamspeak_ts3sdkclient_ts3sdk_Native_ts3client_1processCustomCaptureData sampleErrors (constEngine 0) (capOnly "dev" 4 100) "dev" 3).effects
      = [] :=
  ⟨by decide, by decide, by decide,
    process_rejects_oversized_request sampleErrors (constEngine 0) (capOnly "dev" 4 100)
      "dev" 4 100 3 (by decide) (by decide) (by decide)⟩

/-! ## Registration and unregistration: the caches afterwards -/

theorem ByteBufferCache.find_emplace_isSome (m : ByteBufferCache) (k : String) (v : Nat × Nat) :
    ∃ e, (m.emplace k v).find k = some e := by
  cases h : m.find k with
  | none => exact ⟨v, ByteBufferCache.find_emplace_of_none v h⟩
  | some e => exact ⟨e, by rw [ByteBufferCache.emplace_of_some v h]; exact h⟩

theorem register_globals_of_ok {eng : Engine} (g : Globals) {D name : String}
    {cf cc pf pc : Int} (cap play : Option ByteBuffer)
    (hok : eng.ts3client_registerCustomDevice D name cf cc pf pc = ERROR_ok) :
    (Java_com_teamspeak_ts3sdkclient_ts3sdk_Native_ts3client_1registerCustomDevice eng g D name cf cc cap pf pc play).globals =
      { playByteBufferCache :=
          match play with
          | some b => g.playByteBufferCache.emplace D (bufferPair b)
          | none => g.playByteBufferCache
        capByteBufferCache :=
          match cap with
          | some b => g.capByteBufferCache.emplace D (bufferPair b)
          | none => g.capByteBufferCache } := by
  unfold Java_com_teamspeak_ts3sdkclient_ts3sdk_Native_ts3client_1registerCustomDevice
  simp only [hok, if_true]

theorem register_globals_of_error {eng : Engine} (g : Globals) {D name : String}
    {cf cc pf pc : Int} (cap play : Option ByteBuffer)
    (herr : eng.ts3client_registerCustomDevice D name cf cc pf pc ≠ ERROR_ok) :
    (Java_com_teamspeak_ts3sdkclient_ts3sdk_Native_ts3client_1registerCustomDevice eng g D name cf cc cap pf pc play).globals = g := by
  unfold Java_com_teamspeak_ts3sdkclient_ts3sdk_Native_ts3client_1registerCustomDevice
  simp only [herr, if_false]

theorem unregister_play (eng : Engine) (g : Globals) (D : String) :
    (Java_com_teamspeak_ts3sdkclient_ts3sdk_Native_ts3client_1unregisterCustomDevice eng g D).globals.playByteBufferCache = g.playByteBufferCache.findErase D := rfl

theorem unregister_cap (eng : Engine) (g : Globals) (D : String) :
    (Java_com_teamspeak_ts3sdkclient_ts3sdk_Native_ts3client_1unregisterCustomDevice eng g D).globals.capByteBufferCache = g.capByteBufferCache.findErase D := rfl

/-! ## The cache under registration and unregistration (claims C4 to C8) -/

/-- C4, counterexample to the claim as stated: starting with empty caches, "dev" is registered
with playback region (4, 100) and capture region (6, 300), then registered again with playback
region (8, 200) and capture region (10, 400); the engine accepts both calls (both return 0).
Afterwards the playback entry of "dev" is still (4, 100) and the capture entry still (6, 300):
the second registration did not overwrite the first. -/
theorem reregistration_keeps_first_regions :
    (Java_com_teamspeak_ts3sdkclient_ts3sdk_Native_ts3client_1registerCustomDevice (constEngine 0) emptyGlobals "dev" "Dev" 48000 1 (some ⟨6, 300⟩) 48000 1
      (some ⟨4, 100⟩)).ret = 0 ∧
    (Java_com_teamspeak_ts3sdkclient_ts3sdk_Native_ts3client_1registerCustomDevice (constEngine 0)
      (Java_com_teamspeak_ts3sdkclient_ts3sdk_Native_ts3client_1registerCustomDevice (constEngine 0) emptyGlobals "dev" "Dev" 48000 1 (some ⟨6, 300⟩) 48000 1
        (some ⟨4, 100⟩)).globals
      "dev" "Dev" 48000 1 (some ⟨10, 400⟩) 48000 1 (some ⟨8, 200⟩)).ret = 0 ∧
    (Java_com_teamspeak_ts3sdkclient_ts3sdk_Native_ts3client_1registerCustomDevice (constEngine 0)
      (Java_com_teamspeak_ts3sdkclient_ts3sdk_Native_ts3client_1registerCustomDevice (constEngine 0) emptyGlobals "dev" "Dev" 48000 1 (some ⟨6, 300⟩) 48000 1
        (some ⟨4, 100⟩)).globals
      "dev" "Dev" 48000 1 (some ⟨10, 400⟩) 48000 1
      (some ⟨8, 200⟩)).globals.playByteBufferCache.find "dev" = some (4, 100) ∧
    (Java_com_teamspeak_ts3sdkclient_ts3sdk_Native_ts3client_1registerCustomDevice (constEngine 0)
      (Java_com_teamspeak_ts3sdkclient_ts3sdk_Native_ts3client_1registerCustomDevice (constEngine 0) emptyGlobals "dev" "Dev" 48000 1 (some ⟨6, 300⟩) 48000 1
        (some ⟨4, 100⟩)).globals
      "dev" "Dev" 48000 1 (some ⟨10, 400⟩) 48000 1
      (some ⟨8, 200⟩)).globals.playByteBufferCache.find "dev" ≠ some (8, 200) ∧
    (Java_com_teamspeak_ts3sdkclient_ts3sdk_Native_ts3client_1registerCustomDevice (constEngine 0)
      (Java_com_teamspeak_ts3sdkclient_ts3sdk_Native_ts3client_1registerCustomDevice (constEngine 0) emptyGlobals "dev" "Dev" 48000 1 (some ⟨6, 300⟩) 48000 1
        (some ⟨4, 100⟩)).globals
      "dev" "Dev" 48000 1 (some ⟨10, 400⟩) 48000 1
      (some ⟨8, 200⟩)).globals.capByteBufferCache.find "dev" = some (6, 300) ∧
    (Java_com_teamspeak_ts3sdkclient_ts3sdk_Native_ts3client_1registerCustomDevice (constEngine 0)
      (Java_com_teamspeak_ts3sdkclient_ts3sdk_Native_ts3client_1registerCustomDevice (constEngine 0) emptyGlobals "dev" "Dev" 48000 1 (some ⟨6, 300⟩) 48000 1
        (some ⟨4, 100⟩)).globals
      "dev" "Dev" 48000 1 (some ⟨10, 400⟩) 48000 1
      (some ⟨8, 200⟩)).globals.capByteBufferCache.find "dev" ≠ some (10, 400) := by
  decide

/-- C4, amended: re-registration does not overwrite, direction by direction. A registration
of `D` made while `D` has a playback entry leaves the playback cache as it is, whatever the
engine answers and whatever buffers are passed. So after `registerCustomDevice(D, A1)` and then
`registerCustomDevice(D, A2)`, both accepted by the engine and both passing a playback buffer
(the capture buffers of the two calls being arbitrary, present or not), the playback cache is
the one the first call left: the playback entry of `D` is the one present after the first
call, which is the pair of `A1` when `D` had no playback entry before it. The pair of `A2` is
stored when `unregisterCustomDevice(D)` is called between the two registrations. The same
holds for the capture cache and the capture buffers, the playback buffers being arbitrary. -/
theorem reregistration_does_not_overwrite (eng₁ eng₂ eng₃ : Engine) (g : Globals)
    (D name₁ name₂ : String) (cf₁ cc₁ pf₁ pc₁ cf₂ cc₂ pf₂ pc₂ : Int)
    (capA1 playA1 capA2 playA2 : ByteBuffer) (cap₁ play₁ cap₂ play₂ : Option ByteBuffer)
    (h₁ : eng₁.ts3client_registerCustomDevice D name₁ cf₁ cc₁ pf₁ pc₁ = ERROR_ok)
    (h₂ : eng₂.ts3client_registerCustomDevice D name₂ cf₂ cc₂ pf₂ pc₂ = ERROR_ok) :
    (∀ e, g.playByteBufferCache.find D = some e →
      (Java_com_teamspeak_ts3sdkclient_ts3sdk_Native_ts3client_1registerCustomDevice eng₃ g D name₂ cf₂ cc₂ cap₂ pf₂ pc₂ play₂).globals.playByteBufferCache
        = g.playByteBufferCache) ∧
    (∀ e, g.capByteBufferCache.find D = some e →
      (Java_com_teamspeak_ts3sdkclient_ts3sdk_Native_ts3client_1registerCustomDevice eng₃ g D name₂ cf₂ cc₂ cap₂ pf₂ pc₂ play₂).globals.capByteBufferCache
        = g.capByteBufferCache) ∧
    (Java_com_teamspeak_ts3sdkclient_ts3sdk_Native_ts3client_1registerCustomDevice eng₂ (Java_com_teamspeak_ts3sdkclient_ts3sdk_Native_ts3client_1registerCustomDevice eng₁ g D name₁ cf₁ cc₁ cap₁ pf₁ pc₁ (some playA1)).globals
        D name₂ cf₂ cc₂ cap₂ pf₂ pc₂ (some playA2)).globals.playByteBufferCache
      = (Java_com_teamspeak_ts3sdkclient_ts3sdk_Native_ts3client_1registerCustomDevice eng₁ g D name₁ cf₁ cc₁ cap₁ pf₁ pc₁ (some playA1)).globals.playByteBufferCache ∧
    (Java_com_teamspeak_ts3sdkclient_ts3sdk_Native_ts3client_1registerCustomDevice eng₂ (Java_com_teamspeak_ts3sdkclient_ts3sdk_Native_ts3client_1registerCustomDevice eng₁ g D name₁ cf₁ cc₁ (some capA1) pf₁ pc₁ play₁).globals
        D name₂ cf₂ cc₂ (some capA2) pf₂ pc₂ play₂).globals.capByteBufferCache
      = (Java_com_teamspeak_ts3sdkclient_ts3sdk_Native_ts3client_1registerCustomDevice eng₁ g D name₁ cf₁ cc₁ (some capA1) pf₁ pc₁ play₁).globals.capByteBufferCache ∧
    (g.playByteBufferCache.find D = none →
      (Java_com_teamspeak_ts3sdkclient_ts3sdk_Native_ts3client_1registerCustomDevice eng₂ (Java_com_teamspeak_ts3sdkclient_ts3sdk_Native_ts3client_1registerCustomDevice eng₁ g D name₁ cf₁ cc₁ cap₁ pf₁ pc₁ (some playA1)).globals
          D name₂ cf₂ cc₂ cap₂ pf₂ pc₂ (some playA2)).globals.playByteBufferCache.find D
        = some (bufferPair playA1)) ∧
    (g.capByteBufferCache.find D = none →
      (Java_com_teamspeak_ts3sdkclient_ts3sdk_Native_ts3client_1registerCustomDevice eng₂ (Java_com_teamspeak_ts3sdkclient_ts3sdk_Native_ts3client_1registerCustomDevice eng₁ g D name₁ cf₁ cc₁ (some capA1) pf₁ pc₁ play₁).globals
          D name₂ cf₂ cc₂ (some capA2) pf₂ pc₂ play₂).globals.capByteBufferCache.find D
        = some (bufferPair capA1)) ∧
    (Java_com_teamspeak_ts3sdkclient_ts3sdk_Native_ts3client_1registerCustomDevice eng₂
        (Java_com_teamspeak_ts3sdkclient_ts3sdk_Native_ts3client_1unregisterCustomDevice eng₃
          (Java_com_teamspeak_ts3sdkclient_ts3sdk_Native_ts3client_1registerCustomDevice eng₁ g D name₁ cf₁ cc₁ cap₁ pf₁ pc₁ (some playA1)).globals D).globals
        D name₂ cf₂ cc₂ cap₂ pf₂ pc₂ (some playA2)).globals.playByteBufferCache.find D
      = some (bufferPair playA2) ∧
    (Java_com_teamspeak_ts3sdkclient_ts3sdk_Native_ts3client_1registerCustomDevice eng₂
        (Java_com_teamspeak_ts3sdkclient_ts3sdk_Native_ts3client_1unregisterCustomDevice eng₃
          (Java_com_teamspeak_ts3sdkclient_ts3sdk_Native_ts3client_1registerCustomDevice eng₁ g D name₁ cf₁ cc₁ (some capA1) pf₁ pc₁ play₁).globals D).globals
        D name₂ cf₂ cc₂ (some capA2) pf₂ pc₂ play₂).globals.capByteBufferCache.find D
      = some (bufferPair capA2) := by
  have keepPlay : ∀ (eng : Engine) (g₀ : Globals) (cap play : Option ByteBuffer) (e : Nat × Nat),
      g₀.playByteBufferCache.find D = some e →
      (Java_com_teamspeak_ts3sdkclient_ts3sdk_Native_ts3client_1registerCustomDevice eng g₀ D name₂ cf₂ cc₂ cap pf₂ pc₂ play).globals.playByteBufferCache
        = g₀.playByteBufferCache := by
    intro eng g₀ cap play e he
    by_cases hok : eng.ts3client_registerCustomDevice D name₂ cf₂ cc₂ pf₂ pc₂ = ERROR_ok
    · rw [register_globals_of_ok g₀ cap play hok]
      cases play with
      | none => rfl
      | some b => exact ByteBufferCache.emplace_of_some _ he
    · rw [register_globals_of_error g₀ cap play hok]
  have keepCap : ∀ (eng : Engine) (g₀ : Globals) (cap play : Option ByteBuffer) (e : Nat × Nat),
      g₀.capByteBufferCache.find D = some e →
      (Java_com_teamspeak_ts3sdkclient_ts3sdk_Native_ts3client_1registerCustomDevice eng g₀ D name₂ cf₂ cc₂ cap pf₂ pc₂ play).globals.capByteBufferCache
        = g₀.capByteBufferCache := by
    intro eng g₀ cap play e he
    by_cases hok : eng.ts3client_registerCustomDevice D name₂ cf₂ cc₂ pf₂ pc₂ = ERROR_ok
    · rw [register_globals_of_ok g₀ cap play hok]
      cases cap with
      | none => rfl
      | some b => exact ByteBufferCache.emplace_of_some _ he
    · rw [register_globals_of_error g₀ cap play hok]
  have firstPlay : (Java_com_teamspeak_ts3sdkclient_ts3sdk_Native_ts3client_1registerCustomDevice eng₁ g D name₁ cf₁ cc₁ cap₁ pf₁ pc₁
      (some playA1)).globals.playByteBufferCache
        = g.playByteBufferCache.emplace D (bufferPair playA1) := by
    rw [register_globals_of_ok g cap₁ (some playA1) h₁]
  have firstCap : (Java_com_teamspeak_ts3sdkclient_ts3sdk_Native_ts3client_1registerCustomDevice eng₁ g D name₁ cf₁ cc₁ (some capA1) pf₁ pc₁
      play₁).globals.capByteBufferCache
        = g.capByteBufferCache.emplace D (bufferPair capA1) := by
    rw [register_globals_of_ok g (some capA1) play₁ h₁]
  obtain ⟨ep, hep⟩ := ByteBufferCache.find_emplace_isSome g.playByteBufferCache D
    (bufferPair playA1)
  obtain ⟨ec, hec⟩ := ByteBufferCache.find_emplace_isSome g.capByteBufferCache D
    (bufferPair capA1)
  have secondPlay := keepPlay eng₂
    (Java_com_teamspeak_ts3sdkclient_ts3sdk_Native_ts3client_1registerCustomDevice eng₁ g D name₁ cf₁ cc₁ cap₁ pf₁ pc₁ (some playA1)).globals cap₂ (some playA2) ep
    (by rw [firstPlay]; exact hep)
  have secondCap := keepCap eng₂
    (Java_com_teamspeak_ts3sdkclient_ts3sdk_Native_ts3client_1registerCustomDevice eng₁ g D name₁ cf₁ cc₁ (some capA1) pf₁ pc₁ play₁).globals (some capA2) play₂ ec
    (by rw [firstCap]; exact hec)
  refine ⟨fun e he => keepPlay eng₃ g cap₂ play₂ e he,
    fun e he => keepCap eng₃ g cap₂ play₂ e he, secondPlay, secondCap, ?_, ?_, ?_, ?_⟩
  · intro hnone
    rw [secondPlay, firstPlay]
    exact ByteBufferCache.find_emplace_of_none _ hnone
  · intro hnone
    rw [secondCap, firstCap]
    exact ByteBufferCache.find_emplace_of_none _ hnone
  · rw [register_globals_of_ok _ cap₂ (some playA2) h₂]
    simp only [unregister_play]
    exact ByteBufferCache.find_emplace_of_none _ (ByteBufferCache.find_findErase_self _ D)
  · rw [register_globals_of_ok _ (some capA2) play₂ h₂]
    simp only [unregister_cap]
    exact ByteBufferCache.find_emplace_of_none _ (ByteBufferCache.find_findErase_self _ D)

/-- Witness of C4 (amended): "dev" is registered on empty caches with a playback buffer only,
then again with a playback and a capture buffer; the playback cache is the one the first call
left, with entry (4, 100), while the capture cache, which had no entry for "dev", takes the
capture buffer of the second call. -/
theorem reregistration_does_not_overwrite_witness :
    (constEngine 0).ts3client_registerCustomDevice "dev" "Dev" 48000 1 48000 1 = ERROR_ok ∧
    emptyGlobals.playByteBufferCache.find "dev" = none ∧
    (Java_com_teamspeak_ts3sdkclient_ts3sdk_Native_ts3client_1registerCustomDevice (constEngine 0)
      (Java_com_teamspeak_ts3sdkclient_ts3sdk_Native_ts3client_1registerCustomDevice (constEngine 0) emptyGlobals "dev" "Dev" 48000 1 none 48000 1
        (some ⟨4, 100⟩)).globals
      "dev" "Dev" 48000 1 (some ⟨10, 400⟩) 48000 1 (some ⟨8, 200⟩)).globals.playByteBufferCache
      = (Java_com_teamspeak_ts3sdkclient_ts3sdk_Native_ts3client_1registerCustomDevice (constEngine 0) emptyGlobals "dev" "Dev" 48000 1 none 48000 1
        (some ⟨4, 100⟩)).globals.playByteBufferCache ∧
    (Java_com_teamspeak_ts3sdkclient_ts3sdk_Native_ts3client_1registerCustomDevice (constEngine 0)
      (Java_com_teamspeak_ts3sdkclient_ts3sdk_Native_ts3client_1registerCustomDevice (constEngine 0) emptyGlobals "dev" "Dev" 48000 1 none 48000 1
        (some ⟨4, 100⟩)).globals
      "dev" "Dev" 48000 1 (some ⟨10, 400⟩) 48000 1
      (some ⟨8, 200⟩)).globals.playByteBufferCache.find "dev"
      = some (bufferPair ⟨4, 100⟩) ∧
    (Java_com_teamspeak_ts3sdkclient_ts3sdk_Native_ts3client_1registerCustomDevice (constEngine 0)
      (Java_com_teamspeak_ts3sdkclient_ts3sdk_Native_ts3client_1registerCustomDevice (constEngine 0) emptyGlobals "dev" "Dev" 48000 1 none 48000 1
        (some ⟨4, 100⟩)).globals
      "dev" "Dev" 48000 1 (some ⟨10, 400⟩) 48000 1
      (some ⟨8, 200⟩)).globals.capByteBufferCache.find "dev" = some (10, 400) :=
  ⟨by decide, by decide,
    (reregistration_does_not_overwrite (constEngine 0) (constEngine 0) (constEngine 0)
      emptyGlobals "dev" "Dev" "Dev" 48000 1 48000 1 48000 1 48000 1
      ⟨6, 300⟩ ⟨4, 100⟩ ⟨10, 400⟩ ⟨8, 200⟩ none none (some ⟨10, 400⟩) none
      (by decide) (by decide)).2.2.1,
    (reregistration_does_not_overwrite (constEngine 0) (constEngine 0) (constEngine 0)
      emptyGlobals "dev" "Dev" "Dev" 48000 1 48000 1 48000 1 48000 1
      ⟨6, 300⟩ ⟨4, 100⟩ ⟨10, 400⟩ ⟨8, 200⟩ none none (some ⟨10, 400⟩) none
      (by decide) (by decide)).2.2.2.2.1 (by decide),
    by decide⟩

/-- C5: whatever the cache held, whatever regions are passed and whatever the engine answers,
`registerCustomDevice(D, ...)`, then `unregisterCustomDevice(D)`, then
`acquireCustomPlaybackData(D, 1)` returns `ERROR_parameter_invalid`, without any engine call
by the last of the three. -/
theorem register_unregister_acquire_is_invalid (E : PublicErrors) (eng₁ eng₂ eng₃ : Engine)
    (g : Globals) (D name : String) (cf cc pf pc : Int) (cap play : Option ByteBuffer) :
    (Java_com_teamspeak_ts3sdkclient_ts3sdk_Native_ts3client_1acquireCustomPlaybackData E eng₃ (Java_com_teamspeak_ts3sdkclient_ts3sdk_Native_ts3client_1unregisterCustomDevice eng₂ (Java_com_teamspeak_ts3sdkclient_ts3sdk_Native_ts3client_1registerCustomDevice eng₁ g D name cf cc cap pf pc play).globals D).globals
      D 1).ret = toJint E.ERROR_parameter_invalid ∧
    engineCalls
      (Java_com_teamspeak_ts3sdkclient_ts3sdk_Native_ts3client_1acquireCustomPlaybackData E eng₃ (Java_com_teamspeak_ts3sdkclient_ts3sdk_Native_ts3client_1unregisterCustomDevice eng₂ (Java_com_teamspeak_ts3sdkclient_ts3sdk_Native_ts3client_1registerCustomDevice eng₁ g D name cf cc cap pf pc play).globals D).globals
        D 1).effects = [] := by
  have h : (Java_com_teamspeak_ts3sdkclient_ts3sdk_Native_ts3client_1unregisterCustomDevice eng₂ (Java_com_teamspeak_ts3sdkclient_ts3sdk_Native_ts3client_1registerCustomDevice eng₁ g D name cf cc cap pf pc play).globals
      D).globals.playByteBufferCache.find D = none := by
    rw [unregister_play]
    exact ByteBufferCache.find_findErase_self _ D
  rw [acquire_of_none E eng₃ 1 h]
  exact ⟨rfl, rfl⟩

/-- C6: after `unregisterCustomDevice(D)` neither cache has an entry for `D`, and when neither
had one before the call, both caches are exactly as they were. -/
theorem unregister_removes_both_entries (eng : Engine) (g : Globals) (D : String) :
    (Java_com_teamspeak_ts3sdkclient_ts3sdk_Native_ts3client_1unregisterCustomDevice eng g D).globals.playByteBufferCache.find D = none ∧
    (Java_com_teamspeak_ts3sdkclient_ts3sdk_Native_ts3client_1unregisterCustomDevice eng g D).globals.capByteBufferCache.find D = none ∧
    (g.playByteBufferCache.find D = none → g.capByteBufferCache.find D = none →
      (Java_com_teamspeak_ts3sdkclient_ts3sdk_Native_ts3client_1unregisterCustomDevice eng g D).globals = g) := by
  refine ⟨?_, ?_, ?_⟩
  · rw [unregister_play]
    exact ByteBufferCache.find_findErase_self _ D
  · rw [unregister_cap]
    exact ByteBufferCache.find_findErase_self _ D
  · intro hp hc
    have e : (Java_com_teamspeak_ts3sdkclient_ts3sdk_Native_ts3client_1unregisterCustomDevice eng g D).globals =
        { playByteBufferCache := g.playByteBufferCache.findErase D
          capByteBufferCache := g.capByteBufferCache.findErase D } := rfl
    rw [e, ByteBufferCache.findErase_of_none hp, ByteBufferCache.findErase_of_none hc]

/-- Witness of C6: "dev" is unknown to a cache that only knows "other". -/
theorem unregister_removes_both_entries_witness :
    (playOnly "other" 4 100).playByteBufferCache.find "dev" = none ∧
    (playOnly "other" 4 100).capByteBufferCache.find "dev" = none ∧
    (Java_com_teamspeak_ts3sdkclient_ts3sdk_Native_ts3client_1unregisterCustomDevice (constEngine 0) (playOnly "other" 4 100) "dev").globals = playOnly "other" 4 100 :=
  ⟨by decide, by decide,
    (unregister_removes_both_entries (constEngine 0) (playOnly "other" 4 100) "dev").2.2
      (by decide) (by decide)⟩

/-- C7: when `D` is in neither cache and the engine accepts the device, the playback entry of
`D` after `registerCustomDevice` is the (capacity, address) pair of the playback buffer if one
was passed and is absent otherwise, and likewise for the capture entry and the capture buffer.
The stored capacity is the reported capacity cast to `std::size_t`, which is the reported
capacity itself whenever that is not negative. -/
theorem register_stores_the_regions_passed (eng : Engine) (g : Globals) (D name : String)
    (cf cc pf pc : Int) (cap play : Option ByteBuffer)
    (hp : g.playByteBufferCache.find D = none) (hc : g.capByteBufferCache.find D = none)
    (hok : eng.ts3client_registerCustomDevice D name cf cc pf pc = ERROR_ok) :
    (Java_com_teamspeak_ts3sdkclient_ts3sdk_Native_ts3client_1registerCustomDevice eng g D name cf cc cap pf pc play).globals.playByteBufferCache.find D
      = play.map (fun b => (toSizeT b.capacity, b.address)) ∧
    (Java_com_teamspeak_ts3sdkclient_ts3sdk_Native_ts3client_1registerCustomDevice eng g D name cf cc cap pf pc play).globals.capByteBufferCache.find D
      = cap.map (fun b => (toSizeT b.capacity, b.address)) ∧
    (((Java_com_teamspeak_ts3sdkclient_ts3sdk_Native_ts3client_1registerCustomDevice eng g D name cf cc cap pf pc play).globals.playByteBufferCache.find D).isSome
      ↔ play.isSome) ∧
    (((Java_com_teamspeak_ts3sdkclient_ts3sdk_Native_ts3client_1registerCustomDevice eng g D name cf cc cap pf pc play).globals.capByteBufferCache.find D).isSome
      ↔ cap.isSome) ∧
    (∀ b : ByteBuffer, 0 ≤ b.capacity → b.capacity < 2 ^ 63 →
      ((toSizeT b.capacity : Nat) : Int) = b.capacity) := by
  have hplay : (Java_com_teamspeak_ts3sdkclient_ts3sdk_Native_ts3client_1registerCustomDevice eng g D name cf cc cap pf pc play).globals.playByteBufferCache.find D
      = play.map (fun b => (toSizeT b.capacity, b.address)) := by
    rw [register_globals_of_ok g cap play hok]
    cases play with
    | none => exact hp
    | some b => exact ByteBufferCache.find_emplace_of_none _ hp
  have hcap : (Java_com_teamspeak_ts3sdkclient_ts3sdk_Native_ts3client_1registerCustomDevice eng g D name cf cc cap pf pc play).globals.capByteBufferCache.find D
      = cap.map (fun b => (toSizeT b.capacity, b.address)) := by
    rw [register_globals_of_ok g cap play hok]
    cases cap with
    | none => exact hc
    | some b => exact ByteBufferCache.find_emplace_of_none _ hc
  refine ⟨hplay, hcap, ?_, ?_, ?_⟩
  · rw [hplay]; cases play <;> simp
  · rw [hcap]; cases cap <;> simp
  · intro b h0 h1
    unfold toSizeT SIZE_MODULUS
    omega

/-- Witness of C7: "dev" registered on empty caches with a playback buffer only. -/
theorem register_stores_the_regions_passed_witness :
    emptyGlobals.playByteBufferCache.find "dev" = none ∧
    emptyGlobals.capByteBufferCache.find "dev" = none ∧
    (constEngine 0).ts3client_registerCustomDevice "dev" "Dev" 48000 1 48000 1 = ERROR_ok ∧
    (Java_com_teamspeak_ts3sdkclient_ts3sdk_Native_ts3client_1registerCustomDevice (constEngine 0) emptyGlobals "dev" "Dev" 48000 1 none 48000 1
      (some ⟨4, 100⟩)).globals.playByteBufferCache.find "dev"
      = (some (⟨4, 100⟩ : ByteBuffer)).map (fun b => (toSizeT b.capacity, b.address)) ∧
    (Java_com_teamspeak_ts3sdkclient_ts3sdk_Native_ts3client_1registerCustomDevice (constEngine 0) emptyGlobals "dev" "Dev" 48000 1 none 48000 1
      (some ⟨4, 100⟩)).globals.capByteBufferCache.find "dev"
      = (none : Option ByteBuffer).map (fun b => (toSizeT b.capacity, b.address)) :=
  ⟨by decide, by decide, by decide,
    (register_stores_the_regions_passed (constEngine 0) emptyGlobals "dev" "Dev" 48000 1
      48000 1 none (some ⟨4, 100⟩) (by decide) (by decide) (by decide)).1,
    (register_stores_the_regions_passed (constEngine 0) emptyGlobals "dev" "Dev" 48000 1
      48000 1 none (some ⟨4, 100⟩) (by decide) (by decide) (by decide)).2.1⟩

/-- C8: when the engine's register-device call returns a non-zero code `e`,
`registerCustomDevice` returns `e` (as a `jint`) and leaves both caches unchanged. -/
theorem register_refused_leaves_caches (eng : Engine) (g : Globals) (D name : String)
    (cf cc pf pc : Int) (cap play : Option ByteBuffer) (e : Nat)
    (he : eng.ts3client_registerCustomDevice D name cf cc pf pc = e) (hne : e ≠ 0) :
    (Java_com_teamspeak_ts3sdkclient_ts3sdk_Native_ts3client_1registerCustomDevice eng g D name cf cc cap pf pc play).ret = toJint e ∧
    (Java_com_teamspeak_ts3sdkclient_ts3sdk_Native_ts3client_1registerCustomDevice eng g D name cf cc cap pf pc play).globals = g ∧
    (e < 2 ^ 31 → (Java_com_teamspeak_ts3sdkclient_ts3sdk_Native_ts3client_1registerCustomDevice eng g D name cf cc cap pf pc play).ret = (e : Int)) := by
  have hret : (Java_com_teamspeak_ts3sdkclient_ts3sdk_Native_ts3client_1registerCustomDevice eng g D name cf cc cap pf pc play).ret = toJint e := by
    rw [← he]; rfl
  refine ⟨hret, ?_, ?_⟩
  · apply register_globals_of_error
    rw [he]; exact hne
  · intro hlt
    rw [hret]
    unfold toJint UINT_MODULUS
    have : e % 2 ^ 32 = e := Nat.mod_eq_of_lt (by omega)
    rw [this, if_pos hlt]

/-- Witness of C8: the engine refuses "dev" with code 7. -/
theorem register_refused_leaves_caches_witness :
    (constEngine 7).ts3client_registerCustomDevice "dev" "Dev" 48000 1 48000 1 = 7 ∧
    (7 : Nat) ≠ 0 ∧
    (Java_com_teamspeak_ts3sdkclient_ts3sdk_Native_ts3client_1registerCustomDevice (constEngine 7) emptyGlobals "dev" "Dev" 48000 1 (some ⟨6, 300⟩) 48000 1
      (some ⟨4, 100⟩)).ret = toJint 7 ∧
    (Java_com_teamspeak_ts3sdkclient_ts3sdk_Native_ts3client_1registerCustomDevice (constEngine 7) emptyGlobals "dev" "Dev" 48000 1 (some ⟨6, 300⟩) 48000 1
      (some ⟨4, 100⟩)).globals = emptyGlobals :=
  ⟨by decide, by decide,
    (register_refused_leaves_caches (constEngine 7) emptyGlobals "dev" "Dev" 48000 1 48000 1
      (some ⟨6, 300⟩) (some ⟨4, 100⟩) 7 (by decide) (by decide)).1,
    (register_refused_leaves_caches (constEngine 7) emptyGlobals "dev" "Dev" 48000 1 48000 1
      (some ⟨6, 300⟩) (some ⟨4, 100⟩) 7 (by decide) (by decide)).2.1⟩

/-! ## Forwarding to the engine and the two namespaces (claims C9 and C10) -/

theorem toJint_of_lt {e : Nat} (h : e < 2 ^ 31) : toJint e = (e : Int) := by
  unfold toJint UINT_MODULUS
  have : e % 2 ^ 32 = e := Nat.mod_eq_of_lt (by omega)
  rw [this, if_pos h]

/-- C9: when `D` has an entry (capacity `C`, address `addr`) in the direction of the call and
the size check passes, the acquire call (resp. the submit call) makes exactly one call handing
a buffer to the engine, the engine's acquire (resp. submit) call with `D`, `addr` and the same
sample count `n`, and returns the code the engine returned (as a `jint`, the code itself when
below `2 ^ 31`). -/
theorem validated_request_is_forwarded_once (E : PublicErrors) (eng : Engine) (g : Globals)
    (D : String) (C addr : Nat) (n : Int) (hfit : sizeMul (toSizeT n) sizeofShort ≤ C) :
    (g.playByteBufferCache.find D = some (C, addr) →
      bufferCalls (Java_com_teamspeak_ts3sdkclient_ts3sdk_Native_ts3client_1acquireCustomPlaybackData E eng g D n).effects
        = [EngineCall.acquireCustomPlaybackData D addr n] ∧
      engineCalls (Java_com_teamspeak_ts3sdkclient_ts3sdk_Native_ts3client_1acquireCustomPlaybackData E eng g D n).effects
        = [EngineCall.acquireCustomPlaybackData D addr n] ∧
      (Java_com_teamspeak_ts3sdkclient_ts3sdk_Native_ts3client_1acquireCustomPlaybackData E eng g D n).ret = toJint (eng.ts3client_acquireCustomPlaybackData D addr n) ∧
      (eng.ts3client_acquireCustomPlaybackData D addr n < 2 ^ 31 →
        (Java_com_teamspeak_ts3sdkclient_ts3sdk_Native_ts3client_1acquireCustomPlaybackData E eng g D n).ret = (eng.ts3client_acquireCustomPlaybackData D addr n : Int))) ∧
    (g.capByteBufferCache.find D = some (C, addr) →
      bufferCalls (Java_com_teamspeak_ts3sdkclient_ts3sdk_Native_ts3client_1processCustomCaptureData E eng g D n).effects
        = [EngineCall.processCustomCaptureData D addr n] ∧
      (engineCalls (Java_com_teamspeak_ts3sdkclient_ts3sdk_Native_ts3client_1processCustomCaptureData E eng g D n).effects).head?
        = some (EngineCall.processCustomCaptureData D addr n) ∧
      (Java_com_teamspeak_ts3sdkclient_ts3sdk_Native_ts3client_1processCustomCaptureData E eng g D n).ret = toJint (eng.ts3client_processCustomCaptureData D addr n) ∧
      (eng.ts3client_processCustomCaptureData D addr n < 2 ^ 31 →
        (Java_com_teamspeak_ts3sdkclient_ts3sdk_Native_ts3client_1processCustomCaptureData E eng g D n).ret = (eng.ts3client_processCustomCaptureData D addr n : Int))) := by
  constructor
  · intro hD
    rw [acquire_of_fits E eng hD hfit]
    exact ⟨rfl, rfl, rfl, fun h => toJint_of_lt h⟩
  · intro hD
    rw [process_of_fits E eng hD hfit]
    refine ⟨?_, rfl, rfl, fun h => toJint_of_lt h⟩
    simp only [bufferCalls_append]
    split
    · rw [bufferCalls_reportError]; rfl
    · rfl

/-- Witness of C9: capacity 4 and two samples, in both directions; the engine answers 7. -/
theorem validated_request_is_forwarded_once_witness :
    sizeMul (toSizeT 2) sizeofShort ≤ 4 ∧
    (playOnly "dev" 4 100).playByteBufferCache.find "dev" = some (4, 100) ∧
    (capOnly "dev" 4 100).capByteBufferCache.find "dev" = some (4, 100) ∧
    bufferCalls (Java_com_teamspeak_ts3sdkclient_ts3sdk_Native_ts3client_1acquireCustomPlaybackData sampleErrors (constEngine 7) (playOnly "dev" 4 100) "dev" 2).effects
      = [EngineCall.acquireCustomPlaybackData "dev" 100 2] ∧
    bufferCalls (Java_com_teamspeak_ts3sdkclient_ts3sdk_Native_ts3client_1processCustomCaptureData sampleErrors (constEngine 7) (capOnly "dev" 4 100) "dev" 2).effects
      = [EngineCall.processCustomCaptureData "dev" 100 2] :=
  ⟨by decide, by decide, by decide,
    ((validated_request_is_forwarded_once sampleErrors (constEngine 7) (playOnly "dev" 4 100)
      "dev" 4 100 2 (by decide)).1 (by decide)).1,
    ((validated_request_is_forwarded_once sampleErrors (constEngine 7) (capOnly "dev" 4 100)
      "dev" 4 100 2 (by decide)).2 (by decide)).1⟩

/-- C10: the two namespaces are independent. A device with a playback entry and no capture
entry (in particular one just registered with a playback buffer only, if it had no capture
entry before) makes the submit call return `ERROR_parameter_invalid` for every sample count,
and symmetrically a device with a capture entry only makes the acquire call return
`ERROR_parameter_invalid`; the return value and the effects of the acquire call are the same
in two states with the same playback cache, those of the submit call in two states with the
same capture cache. -/
theorem playback_and_capture_are_independent (E : PublicErrors) (eng eng' : Engine)
    (g g' : Globals) (D name : String) (cf cc pf pc : Int) (b : ByteBuffer) (n : Int) :
    ((g.playByteBufferCache.find D).isSome → g.capByteBufferCache.find D = none →
      (Java_com_teamspeak_ts3sdkclient_ts3sdk_Native_ts3client_1processCustomCaptureData E eng g D n).ret = toJint E.ERROR_parameter_invalid) ∧
    ((g.capByteBufferCache.find D).isSome → g.playByteBufferCache.find D = none →
      (Java_com_teamspeak_ts3sdkclient_ts3sdk_Native_ts3client_1acquireCustomPlaybackData E eng g D n).ret = toJint E.ERROR_parameter_invalid) ∧
    (g.capByteBufferCache.find D = none →
      (Java_com_teamspeak_ts3sdkclient_ts3sdk_Native_ts3client_1processCustomCaptureData E eng (Java_com_teamspeak_ts3sdkclient_ts3sdk_Native_ts3client_1registerCustomDevice eng' g D name cf cc none pf pc (some b)).globals D n).ret
        = toJint E.ERROR_parameter_invalid) ∧
    (g.playByteBufferCache.find D = none →
      (Java_com_teamspeak_ts3sdkclient_ts3sdk_Native_ts3client_1acquireCustomPlaybackData E eng (Java_com_teamspeak_ts3sdkclient_ts3sdk_Native_ts3client_1registerCustomDevice eng' g D name cf cc (some b) pf pc none).globals D n).ret
        = toJint E.ERROR_parameter_invalid) ∧
    (g.playByteBufferCache = g'.playByteBufferCache →
      (Java_com_teamspeak_ts3sdkclient_ts3sdk_Native_ts3client_1acquireCustomPlaybackData E eng g D n).ret = (Java_com_teamspeak_ts3sdkclient_ts3sdk_Native_ts3client_1acquireCustomPlaybackData E eng g' D n).ret ∧
      (Java_com_teamspeak_ts3sdkclient_ts3sdk_Native_ts3client_1acquireCustomPlaybackData E eng g D n).effects = (Java_com_teamspeak_ts3sdkclient_ts3sdk_Native_ts3client_1acquireCustomPlaybackData E eng g' D n).effects) ∧
    (g.capByteBufferCache = g'.capByteBufferCache →
      (Java_com_teamspeak_ts3sdkclient_ts3sdk_Native_ts3client_1processCustomCaptureData E eng g D n).ret = (Java_com_teamspeak_ts3sdkclient_ts3sdk_Native_ts3client_1processCustomCaptureData E eng g' D n).ret ∧
      (Java_com_teamspeak_ts3sdkclient_ts3sdk_Native_ts3client_1processCustomCaptureData E eng g D n).effects = (Java_com_teamspeak_ts3sdkclient_ts3sdk_Native_ts3client_1processCustomCaptureData E eng g' D n).effects) := by
  refine ⟨?_, ?_, ?_, ?_, ?_, ?_⟩
  · intro _ hc
    rw [process_of_none E eng n hc]
  · intro _ hp
    rw [acquire_of_none E eng n hp]
  · intro hc
    have h : (Java_com_teamspeak_ts3sdkclient_ts3sdk_Native_ts3client_1registerCustomDevice eng' g D name cf cc none pf pc (some b)).globals.capByteBufferCache.find D
        = none := by
      by_cases hok : eng'.ts3client_registerCustomDevice D name cf cc pf pc = ERROR_ok
      · rw [register_globals_of_ok g none (some b) hok]; exact hc
      · rw [register_globals_of_error g none (some b) hok]; exact hc
    rw [process_of_none E eng n h]
  · intro hp
    have h : (Java_com_teamspeak_ts3sdkclient_ts3sdk_Native_ts3client_1registerCustomDevice eng' g D name cf cc (some b) pf pc none).globals.playByteBufferCache.find D
        = none := by
      by_cases hok : eng'.ts3client_registerCustomDevice D name cf cc pf pc = ERROR_ok
      · rw [register_globals_of_ok g (some b) none hok]; exact hp
      · rw [register_globals_of_error g (some b) none hok]; exact hp
    rw [acquire_of_none E eng n h]
  · intro hpp
    unfold Java_com_teamspeak_ts3sdkclient_ts3sdk_Native_ts3client_1acquireCustomPlaybackData
    rw [hpp]
    cases g'.playByteBufferCache.find D with
    | none => exact ⟨rfl, rfl⟩
    | some e =>
      obtain ⟨C, addr⟩ := e
      by_cases hgt : sizeMul (toSizeT n) sizeofShort > C
      · simp only [if_pos hgt, and_self]
      · simp only [if_neg hgt, and_self]
  · intro hcc
    unfold Java_com_teamspeak_ts3sdkclient_ts3sdk_Native_ts3client_1processCustomCaptureData
    rw [hcc]
    cases g'.capByteBufferCache.find D with
    | none => exact ⟨rfl, rfl⟩
    | some e =>
      obtain ⟨C, addr⟩ := e
      by_cases hgt : sizeMul (toSizeT n) sizeofShort > C
      · simp only [if_pos hgt, and_self]
      · simp only [if_neg hgt, and_self]

/-- Witness of C10: "dev" has a playback entry only, so a submit for it is refused. -/
theorem playback_and_capture_are_independent_witness :
    ((playOnly "dev" 4 100).playByteBufferCache.find "dev").isSome ∧
    (playOnly "dev" 4 100).capByteBufferCache.find "dev" = none ∧
    (Java_com_teamspeak_ts3sdkclient_ts3sdk_Native_ts3client_1processCustomCaptureData sampleErrors (constEngine 0) (playOnly "dev" 4 100) "dev" 1).ret
      = toJint sampleErrors.ERROR_parameter_invalid ∧
    (Java_com_teamspeak_ts3sdkclient_ts3sdk_Native_ts3client_1processCustomCaptureData sampleErrors (constEngine 0)
      (Java_com_teamspeak_ts3sdkclient_ts3sdk_Native_ts3client_1registerCustomDevice (constEngine 0) emptyGlobals "dev" "Dev" 48000 1 none 48000 1
        (some ⟨4, 100⟩)).globals "dev" 1).ret
      = toJint sampleErrors.ERROR_parameter_invalid :=
  ⟨by decide, by decide,
    (playback_and_capture_are_independent sampleErrors (constEngine 0) (constEngine 0)
      (playOnly "dev" 4 100) emptyGlobals "dev" "Dev" 48000 1 48000 1 ⟨4, 100⟩ 1).1
      (by decide) (by decide),
    (playback_and_capture_are_independent sampleErrors (constEngine 0) (constEngine 0)
      emptyGlobals emptyGlobals "dev" "Dev" 48000 1 48000 1 ⟨4, 100⟩ 1).2.2.1 (by decide)⟩

/-! ## Lemmas on the callbacks -/

theorem connectVM_cases (gJavaVM : JavaVM) :
    connectVM gJavaVM =
        { isAttached := false, env := false,
          effects := [CbEffect.vm VmCall.GetEnv, CbEffect.vm VmCall.AttachCurrentThread,
            CbEffect.LOGE "callback_handler: failed to attach current thread"] } ∨
    connectVM gJavaVM =
        { isAttached := true, env := true,
          effects := [CbEffect.vm VmCall.GetEnv, CbEffect.vm VmCall.AttachCurrentThread] } ∨
    connectVM gJavaVM =
        { isAttached := false, env := true, effects := [CbEffect.vm VmCall.GetEnv] } := by
  unfold connectVM
  by_cases h₁ : gJavaVM.GetEnv < 0
  · by_cases h₂ : gJavaVM.AttachCurrentThread < 0
    · left; simp only [if_pos h₁, if_pos h₂]
    · right; left; simp only [if_pos h₁, if_neg h₂]
  · right; right; simp only [if_neg h₁]

/-! ## The event objects (claim C11) -/

/-- C11: each of the eleven callbacks, for all native arguments (and every runtime), looks up
one constructor and passes it the native arguments in their order, so that the constructor
receives 64-bit identifiers as `long`, `int`, `unsigned int` and `anyID` values as `int`, and
each string as a reference to a runtime string made from it; for a connection-status change
with handle 7, status 2 and error 0 the fields are (7, 2, 0). -/
theorem callbacks_pass_native_arguments_in_order (gJavaVM : JavaVM) (env : JNIEnv)
    (st : Statics) :
    (∀ (serverConnectionHandlerID : Nat) (newStatus : Int) (errorNumber : Nat),
      eventObjects (onConnectStatusChangeEvent gJavaVM env st
          serverConnectionHandlerID newStatus errorNumber)
        = [some [JValue.long (toJlong serverConnectionHandlerID),
          JValue.int newStatus,
          JValue.int (toJint errorNumber)]]) ∧
    (∀ (serverConnectionHandlerID channelID channelParentID : Nat),
      eventObjects (onNewChannelEvent gJavaVM env st
          serverConnectionHandlerID channelID channelParentID)
        = [some [JValue.long (toJlong serverConnectionHandlerID),
          JValue.long (toJlong channelID),
          JValue.long (toJlong channelParentID)]]) ∧
    (∀ (serverConnectionHandlerID channelID channelParentID invokerID : Nat) (invokerName invokerUniqueIdentifier : String),
      eventObjects (onNewChannelCreatedEvent gJavaVM env st
          serverConnectionHandlerID channelID channelParentID invokerID invokerName invokerUniqueIdentifier)
        = [some [JValue.long (toJlong serverConnectionHandlerID),
          JValue.long (toJlong channelID),
          JValue.long (toJlong channelParentID),
          JValue.int (invokerID : Int),
          JValue.object (env.NewLocalRef (env.NewStringUTF invokerName)),
          JValue.object (env.NewLocalRef (env.NewStringUTF invokerUniqueIdentifier))]]) ∧
    (∀ (serverConnectionHandlerID channelID invokerID : Nat) (invokerName invokerUniqueIdentifier : String),
      eventObjects (onDelChannelEvent gJavaVM env st
          serverConnectionHandlerID channelID invokerID invokerName invokerUniqueIdentifier)
        = [some [JValue.long (toJlong serverConnectionHandlerID),
          JValue.long (toJlong channelID),
          JValue.int (invokerID : Int),
          JValue.object (env.NewLocalRef (env.NewStringUTF invokerName)),
          JValue.object (env.NewLocalRef (env.NewStringUTF invokerUniqueIdentifier))]]) ∧
    (∀ (serverConnectionHandlerID clientID oldChannelID newChannelID : Nat) (visibility : Int) (moveMessage : String),
      eventObjects (onClientMoveEvent gJavaVM env st
          serverConnectionHandlerID clientID oldChannelID newChannelID visibility moveMessage)
        = [some [JValue.long (toJlong serverConnectionHandlerID),
          JValue.int (clientID : Int),
          JValue.long (toJlong oldChannelID),
          JValue.long (toJlong newChannelID),
          JValue.int visibility,
          JValue.object (env.NewLocalRef (env.NewStringUTF moveMessage))]]) ∧
    (∀ (serverConnectionHandlerID clientID oldChannelID newChannelID : Nat) (visibility : Int),
      eventObjects (onClientMoveSubscriptionEvent gJavaVM env st
          serverConnectionHandlerID clientID oldChannelID newChannelID visibility)
        = [some [JValue.long (toJlong serverConnectionHandlerID),
          JValue.int (clientID : Int),
          JValue.long (toJlong oldChannelID),
          JValue.long (toJlong newChannelID),
          JValue.int visibility]]) ∧
    (∀ (serverConnectionHandlerID clientID oldChannelID newChannelID : Nat) (visibility : Int) (timeoutMessage : String),
      eventObjects (onClientMoveTimeoutEvent gJavaVM env st
          serverConnectionHandlerID clientID oldChannelID newChannelID visibility timeoutMessage)
        = [some [JValue.long (toJlong serverConnectionHandlerID),
          JValue.int (clientID : Int),
          JValue.long (toJlong oldChannelID),
          JValue.long (toJlong newChannelID),
          JValue.int visibility,
          JValue.object (env.NewLocalRef (env.NewStringUTF timeoutMessage))]]) ∧
    (∀ (serverConnectionHandlerID clientID oldChannelID newChannelID : Nat) (visibility : Int) (moverID : Nat) (moverName moverUniqueIdentifier moveMessage : String),
      eventObjects (onClientMoveMovedEvent gJavaVM env st
          serverConnectionHandlerID clientID oldChannelID newChannelID visibility moverID moverName moverUniqueIdentifier moveMessage)
        = [some [JValue.long (toJlong serverConnectionHandlerID),
          JValue.int (clientID : Int),
          JValue.long (toJlong oldChannelID),
          JValue.long (toJlong newChannelID),
          JValue.int visibility,
          JValue.int (moverID : Int),
          JValue.object (env.NewLocalRef (env.NewStringUTF moverName)),
          JValue.object (env.NewLocalRef (env.NewStringUTF moverUniqueIdentifier)),
          JValue.object (env.NewLocalRef (env.NewStringUTF moveMessage))]]) ∧
    (∀ (serverConnectionHandlerID : Nat) (status isReceivedWhisper : Int) (clientID : Nat),
      eventObjects (onTalkStatusChangeEvent gJavaVM env st
          serverConnectionHandlerID status isReceivedWhisper clientID)
        = [some [JValue.long (toJlong serverConnectionHandlerID),
          JValue.int status,
          JValue.int isReceivedWhisper,
          JValue.int (clientID : Int)]]) ∧
    (∀ (serverConnectionHandlerID : Nat) (errorMessage : String) (error : Nat) (returnCode extraMessage : String),
      eventObjects (onServerErrorEvent gJavaVM env st
          serverConnectionHandlerID errorMessage error returnCode extraMessage)
        = [some [JValue.long (toJlong serverConnectionHandlerID),
          JValue.object (env.NewLocalRef (env.NewStringUTF errorMessage)),
          JValue.int (toJint error),
          JValue.object (env.NewLocalRef (env.NewStringUTF returnCode)),
          JValue.object (env.NewLocalRef (env.NewStringUTF extraMessage))]]) ∧
    (∀ (logMessage : String) (logLevel : Int) (logChannel : String) (logID : Nat) (logTime completeLogString : String),
      eventObjects (onUserLoggingMessageEvent gJavaVM env st
          logMessage logLevel logChannel logID logTime completeLogString)
        = [some [JValue.object (env.NewLocalRef (env.NewStringUTF logMessage)),
          JValue.int logLevel,
          JValue.object (env.NewLocalRef (env.NewStringUTF logChannel)),
          JValue.long (toJlong logID),
          JValue.object (env.NewLocalRef (env.NewStringUTF logTime)),
          JValue.object (env.NewLocalRef (env.NewStringUTF completeLogString))]]) ∧
    eventObjects (onConnectStatusChangeEvent gJavaVM env st 7 2 0)
      = [some [JValue.long 7, JValue.int 2, JValue.int 0]] := by
  refine ⟨?_, ?_, ?_, ?_, ?_, ?_, ?_, ?_, ?_, ?_, ?_, ?_⟩
  · intros
    rcases connectVM_cases gJavaVM with h | h | h <;>
      simp only [onConnectStatusChangeEvent, h] <;> rfl
  · intros
    rcases connectVM_cases gJavaVM with h | h | h <;>
      simp only [onNewChannelEvent, h] <;> rfl
  · intros
    rcases connectVM_cases gJavaVM with h | h | h <;>
      simp only [onNewChannelCreatedEvent, h] <;> rfl
  · intros
    rcases connectVM_cases gJavaVM with h | h | h <;>
      simp only [onDelChannelEvent, h] <;> rfl
  · intros
    rcases connectVM_cases gJavaVM with h | h | h <;>
      simp only [onClientMoveEvent, h] <;> rfl
  · intros
    rcases connectVM_cases gJavaVM with h | h | h <;>
      simp only [onClientMoveSubscriptionEvent, h] <;> rfl
  · intros
    rcases connectVM_cases gJavaVM with h | h | h <;>
      simp only [onClientMoveTimeoutEvent, h] <;> rfl
  · intros
    rcases connectVM_cases gJavaVM with h | h | h <;>
      simp only [onClientMoveMovedEvent, h] <;> rfl
  · intros
    rcases connectVM_cases gJavaVM with h | h | h <;>
      simp only [onTalkStatusChangeEvent, h] <;> rfl
  · intros
    rcases connectVM_cases gJavaVM with h | h | h <;>
      simp only [onServerErrorEvent, h] <;> rfl
  · intros
    rcases connectVM_cases gJavaVM with h | h | h <;>
      simp only [onUserLoggingMessageEvent, h] <;> rfl
  · rcases connectVM_cases gJavaVM with h | h | h <;>
      simp only [onConnectStatusChangeEvent, h] <;> rfl


theorem connectVM_of_attached {gJavaVM : JavaVM} (h : 0 ≤ gJavaVM.GetEnv) :
    connectVM gJavaVM =
      { isAttached := false, env := true, effects := [CbEffect.vm VmCall.GetEnv] } := by
  unfold connectVM
  simp only [if_neg (not_lt.mpr h)]

theorem connectVM_of_attach_ok {gJavaVM : JavaVM} (h₁ : gJavaVM.GetEnv < 0)
    (h₂ : 0 ≤ gJavaVM.AttachCurrentThread) :
    connectVM gJavaVM =
      { isAttached := true, env := true,
        effects := [CbEffect.vm VmCall.GetEnv, CbEffect.vm VmCall.AttachCurrentThread] } := by
  unfold connectVM
  simp only [if_pos h₁, if_neg (not_lt.mpr h₂)]

theorem connectVM_of_attach_failed {gJavaVM : JavaVM} (h₁ : gJavaVM.GetEnv < 0)
    (h₂ : gJavaVM.AttachCurrentThread < 0) :
    connectVM gJavaVM =
      { isAttached := false, env := false,
        effects := [CbEffect.vm VmCall.GetEnv, CbEffect.vm VmCall.AttachCurrentThread,
          CbEffect.LOGE "callback_handler: failed to attach current thread"] } := by
  unfold connectVM
  simp only [if_pos h₁, if_pos h₂]

/-! ## Attaching and detaching (claims C12 and C13) -/

/-- C12: for every callback, every runtime and every static state, the callback detaches the
thread exactly when it attached it. If the thread has no runtime handle and attaching
succeeds, there is one `AttachCurrentThread`, one `DetachCurrentThread`, and the detach is the
last thing the callback does, whatever the lookups and the construction return. If attaching
fails, or if the thread had a runtime handle on entry, there is no detach. -/
theorem callback_detaches_iff_it_attached (gJavaVM : JavaVM) (env : JNIEnv) (st : Statics)
    (ev : NativeEvent) :
    (gJavaVM.GetEnv < 0 → 0 ≤ gJavaVM.AttachCurrentThread →
      attachCount (ev.callback gJavaVM env st) = 1 ∧
      detachCount (ev.callback gJavaVM env st) = 1 ∧
      (ev.callback gJavaVM env st).getLast? = some (CbEffect.vm VmCall.DetachCurrentThread)) ∧
    (gJavaVM.GetEnv < 0 → gJavaVM.AttachCurrentThread < 0 →
      attachCount (ev.callback gJavaVM env st) = 1 ∧
      detachCount (ev.callback gJavaVM env st) = 0) ∧
    (0 ≤ gJavaVM.GetEnv →
      attachCount (ev.callback gJavaVM env st) = 0 ∧
      detachCount (ev.callback gJavaVM env st) = 0) := by
  refine ⟨?_, ?_, ?_⟩
  · intro h₁ h₂
    have h := connectVM_of_attach_ok h₁ h₂
    cases ev <;>
      simp only [NativeEvent.callback, onConnectStatusChangeEvent, onNewChannelEvent, onNewChannelCreatedEvent, onDelChannelEvent, onClientMoveEvent, onClientMoveSubscriptionEvent, onClientMoveTimeoutEvent, onClientMoveMovedEvent, onTalkStatusChangeEvent, onServerErrorEvent, onUserLoggingMessageEvent, h] <;>
      exact ⟨rfl, rfl, rfl⟩
  · intro h₁ h₂
    have h := connectVM_of_attach_failed h₁ h₂
    cases ev <;>
      simp only [NativeEvent.callback, onConnectStatusChangeEvent, onNewChannelEvent, onNewChannelCreatedEvent, onDelChannelEvent, onClientMoveEvent, onClientMoveSubscriptionEvent, onClientMoveTimeoutEvent, onClientMoveMovedEvent, onTalkStatusChangeEvent, onServerErrorEvent, onUserLoggingMessageEvent, h] <;>
      exact ⟨rfl, rfl⟩
  · intro h₁
    have h := connectVM_of_attached h₁
    cases ev <;>
      simp only [NativeEvent.callback, onConnectStatusChangeEvent, onNewChannelEvent, onNewChannelCreatedEvent, onDelChannelEvent, onClientMoveEvent, onClientMoveSubscriptionEvent, onClientMoveTimeoutEvent, onClientMoveMovedEvent, onTalkStatusChangeEvent, onServerErrorEvent, onUserLoggingMessageEvent, h] <;>
      exact ⟨rfl, rfl⟩

/-- Witness of C12: a native thread that the runtime attaches is detached once, at the end of
a connection-status callback. -/
theorem callback_detaches_iff_it_attached_witness :
    nativeThread.GetEnv < 0 ∧ 0 ≤ nativeThread.AttachCurrentThread ∧
    detachCount ((NativeEvent.ConnectStatusChange 7 2 0).callback nativeThread sampleEnv
      zeroStatics) = 1 ∧
    (0 ≤ attachedThread.GetEnv) ∧
    detachCount ((NativeEvent.ConnectStatusChange 7 2 0).callback attachedThread sampleEnv
      zeroStatics) = 0 :=
  ⟨by decide, by decide,
    ((callback_detaches_iff_it_attached nativeThread sampleEnv zeroStatics
      (NativeEvent.ConnectStatusChange 7 2 0)).1 (by decide) (by decide)).2.1,
    by decide,
    ((callback_detaches_iff_it_attached attachedThread sampleEnv zeroStatics
      (NativeEvent.ConnectStatusChange 7 2 0)).2.2 (by decide)).2⟩

/-- C13, the code at the failing input: the statics are those `JNI_OnLoad` sets in a runtime
where everything resolves; a connection-status change (7, 2, 0) arrives on a thread without a
runtime handle that the runtime fails to attach. After logging the failure the callback goes
on: through the `env` pointer that was never set it asks for the class of the target object,
looks up the constructor, calls `NewObject` with the arguments (7, 2, 0) and calls the `Post`
method on the result. It is not aborted. -/
theorem callback_goes_on_after_failed_attach :
    onConnectStatusChangeEvent unattachableThread sampleEnv
        (JNI_OnLoad attachedThread sampleEnv zeroStatics).statics 7 2 0 =
      [CbEffect.vm VmCall.GetEnv, CbEffect.vm VmCall.AttachCurrentThread,
        CbEffect.LOGE "callback_handler: failed to attach current thread",
        CbEffect.LOGI "ConnectStatusChange",
        CbEffect.env false (JniCall.GetObjectClass 31),
        CbEffect.env false (JniCall.GetMethodID 12 "<init>" "(JII)V"),
        CbEffect.env false (JniCall.NewObject 12 20
          [CArg.uint64 7, CArg.int 2, CArg.unsignedInt 0]),
        CbEffect.env false (JniCall.CallVoidMethod 30 21)] := by
  decide


/-! ## Lemmas on loading -/

theorem initClassHelper_of_failure (env : JNIEnv) (path : String) (objptr : Nat)
    (fire_method_id : Option Nat)
    (h : env.FindClass path = 0 ∨
      env.GetMethodID (env.FindClass path) "<init>" "()V" = 0 ∨
      env.NewObject (env.FindClass path)
        (env.GetMethodID (env.FindClass path) "<init>" "()V") [] = 0) :
    (initClassHelper env path objptr fire_method_id).1 = (objptr, fire_method_id) := by
  unfold initClassHelper
  by_cases h₁ : env.FindClass path = 0
  · simp only [if_pos h₁]
  · by_cases h₂ : env.GetMethodID (env.FindClass path) "<init>" "()V" = 0
    · simp only [if_neg h₁, if_pos h₂]
    · have h₃ : env.NewObject (env.FindClass path)
          (env.GetMethodID (env.FindClass path) "<init>" "()V") [] = 0 := by
        rcases h with h | h | h
        · exact absurd h h₁
        · exact absurd h h₂
        · exact h
      simp only [if_neg h₁, if_neg h₂, if_pos h₃]

theorem initClassHelper_of_success (env : JNIEnv) (path : String) (objptr old : Nat)
    (h₁ : env.FindClass path ≠ 0)
    (h₂ : env.GetMethodID (env.FindClass path) "<init>" "()V" ≠ 0)
    (h₃ : env.NewObject (env.FindClass path)
      (env.GetMethodID (env.FindClass path) "<init>" "()V") [] ≠ 0) :
    (initClassHelper env path objptr (some old)).1 =
      (env.NewGlobalRef (env.NewObject (env.FindClass path)
          (env.GetMethodID (env.FindClass path) "<init>" "()V") []),
        some (env.GetMethodID (env.FindClass path) "Post" "()V")) := by
  unfold initClassHelper
  simp only [if_neg h₁, if_neg h₂, if_neg h₃]

theorem findClassCalls_append (l₁ l₂ : List CbEffect) :
    findClassCalls (l₁ ++ l₂) = findClassCalls l₁ ++ findClassCalls l₂ := by
  induction l₁ with
  | nil => rfl
  | cons a t ih =>
    cases a with
    | env valid c => cases c <;> simp [findClassCalls, ih]
    | _ => simp [findClassCalls, ih]

theorem findClassCalls_initClassHelper (env : JNIEnv) (path : String) (objptr : Nat)
    (fire_method_id : Option Nat) :
    findClassCalls (initClassHelper env path objptr fire_method_id).2 = [path] := by
  unfold initClassHelper
  by_cases h₁ : env.FindClass path = 0
  · simp only [if_pos h₁]; rfl
  · by_cases h₂ : env.GetMethodID (env.FindClass path) "<init>" "()V" = 0
    · simp only [if_neg h₁, if_pos h₂]; rfl
    · by_cases h₃ : env.NewObject (env.FindClass path)
          (env.GetMethodID (env.FindClass path) "<init>" "()V") [] = 0
      · simp only [if_neg h₁, if_neg h₂, if_pos h₃]; rfl
      · simp only [if_neg h₁, if_neg h₂, if_neg h₃]
        cases fire_method_id with
        | none => rfl
        | some old =>
          simp only [findClassCalls_append]
          split <;> rfl

theorem JNI_OnLoad_entry (vm : JavaVM) (env : JNIEnv) (st : Statics) (k : EventKind)
    (hvm : vm.GetEnv = JNI_OK) :
    (JNI_OnLoad vm env st).statics.entry k = initPair env k.classPath (st.entry k) := by
  unfold JNI_OnLoad
  simp only [hvm, ne_eq, not_true_eq_false, if_false]
  cases k <;> rfl

/-! ## Registration at load time and the wiring of the events (claims C14 and C15) -/

/-- C14, counterexample to the claim as stated: in a runtime where the class, its constructor
and the target object are obtained but the method `Post` is not found, `JNI_OnLoad` leaves the
connection-status kind with its target-object handle set (31) and a null entry point; and the
callback of that kind is then no no-op: it constructs an event object and calls the null
method on it. -/
theorem unresolved_post_leaves_handle_set :
    envWithoutPost.GetMethodID 11 "Post" "()V" = 0 ∧
    (JNI_OnLoad attachedThread envWithoutPost zeroStatics).statics.Android_Event_ConnectStatusChange
      = (31, 0) ∧
    onConnectStatusChangeEvent attachedThread envWithoutPost
        (JNI_OnLoad attachedThread envWithoutPost zeroStatics).statics 7 2 0 =
      [CbEffect.vm VmCall.GetEnv,
        CbEffect.LOGI "ConnectStatusChange",
        CbEffect.env true (JniCall.GetObjectClass 31),
        CbEffect.env true (JniCall.GetMethodID 12 "<init>" "(JII)V"),
        CbEffect.env true (JniCall.NewObject 12 20
          [CArg.uint64 7, CArg.int 2, CArg.unsignedInt 0]),
        CbEffect.env true (JniCall.CallVoidMethod 30 0)] := by
  decide

/-- C14, amended: for every event kind, when the class of the kind, its constructor or the
target object cannot be obtained by `initClassHelper` at load time, the kind is left
completely unregistered (handle and entry point both null, as before the load); when these
three are obtained, the handle is set to the global reference of the target object and the
entry point to what the lookup of `Post` returned, which is null if `Post` cannot be
resolved. -/
theorem load_sets_handle_then_entry_point (vm : JavaVM) (env : JNIEnv) (k : EventKind)
    (hvm : vm.GetEnv = JNI_OK) :
    ((env.FindClass k.classPath = 0 ∨
        env.GetMethodID (env.FindClass k.classPath) "<init>" "()V" = 0 ∨
        env.NewObject (env.FindClass k.classPath)
          (env.GetMethodID (env.FindClass k.classPath) "<init>" "()V") [] = 0) →
      (JNI_OnLoad vm env zeroStatics).statics.entry k = (0, 0)) ∧
    (env.FindClass k.classPath ≠ 0 →
      env.GetMethodID (env.FindClass k.classPath) "<init>" "()V" ≠ 0 →
      env.NewObject (env.FindClass k.classPath)
          (env.GetMethodID (env.FindClass k.classPath) "<init>" "()V") [] ≠ 0 →
      (JNI_OnLoad vm env zeroStatics).statics.entry k =
        (env.NewGlobalRef (env.NewObject (env.FindClass k.classPath)
            (env.GetMethodID (env.FindClass k.classPath) "<init>" "()V") []),
          env.GetMethodID (env.FindClass k.classPath) "Post" "()V") ∧
      (env.GetMethodID (env.FindClass k.classPath) "Post" "()V" = 0 →
        ((JNI_OnLoad vm env zeroStatics).statics.entry k).2 = 0)) := by
  have hz : zeroStatics.entry k = (0, 0) := by cases k <;> rfl
  rw [JNI_OnLoad_entry vm env zeroStatics k hvm, hz]
  constructor
  · intro h
    unfold initPair
    rw [initClassHelper_of_failure env k.classPath 0 (some 0) h]
    rfl
  · intro h₁ h₂ h₃
    have e : initPair env k.classPath (0, 0) =
        (env.NewGlobalRef (env.NewObject (env.FindClass k.classPath)
            (env.GetMethodID (env.FindClass k.classPath) "<init>" "()V") []),
          env.GetMethodID (env.FindClass k.classPath) "Post" "()V") := by
      unfold initPair
      rw [initClassHelper_of_success env k.classPath 0 0 h₁ h₂ h₃]
      rfl
    rw [e]
    exact ⟨rfl, fun h => h⟩

/-- Witness of C14 (amended): no class is found, the connection-status kind stays
unregistered. -/
theorem load_sets_handle_then_entry_point_witness :
    attachedThread.GetEnv = JNI_OK ∧
    envWithoutClasses.FindClass EventKind.ConnectStatusChange.classPath = 0 ∧
    (JNI_OnLoad attachedThread envWithoutClasses zeroStatics).statics.entry
      EventKind.ConnectStatusChange = (0, 0) :=
  ⟨by decide, by decide,
    (load_sets_handle_then_entry_point attachedThread envWithoutClasses
      EventKind.ConnectStatusChange (by decide)).1 (Or.inl (by decide))⟩

/-- C15: the wiring of the events is complete and consistent. `JNI_OnLoad` calls
`initClassHelper` once for `java/lang/String` and once for the class of each of the eleven
event kinds, and the static pair of kind `k` afterwards is the result of that helper on the
class of `k`. `init` fills exactly the eleven slots of the callback table, the slot of each
kind with the callback of that kind, so that an event raised through the table runs the
callback of its kind; and that callback depends on the statics only through the pair of its
own kind. The callbacks only read the statics: they return nothing but their calls. -/
theorem event_wiring_is_complete (vm : JavaVM) (env : JNIEnv) (st : Statics) (eng : Engine)
    (native_lib_path : String) (hvm : vm.GetEnv = JNI_OK) :
    findClassCalls (JNI_OnLoad vm env st).effects
      = "java/lang/String" :: EventKind.all.map EventKind.classPath ∧
    (EventKind.all.map EventKind.classPath).Nodup ∧
    EventKind.all.length = 11 ∧
    (∀ k : EventKind, k ∈ EventKind.all) ∧
    (∀ k : EventKind,
      (JNI_OnLoad vm env st).statics.entry k = initPair env k.classPath (st.entry k)) ∧
    (init eng native_lib_path).clUIFuncs.installed = EventKind.all ∧
    (init eng native_lib_path).clUIFuncs.onConnectStatusChangeEvent = some onConnectStatusChangeEvent ∧
    (init eng native_lib_path).clUIFuncs.onNewChannelEvent = some onNewChannelEvent ∧
    (init eng native_lib_path).clUIFuncs.onNewChannelCreatedEvent = some onNewChannelCreatedEvent ∧
    (init eng native_lib_path).clUIFuncs.onDelChannelEvent = some onDelChannelEvent ∧
    (init eng native_lib_path).clUIFuncs.onClientMoveEvent = some onClientMoveEvent ∧
    (init eng native_lib_path).clUIFuncs.onClientMoveSubscriptionEvent = some onClientMoveSubscriptionEvent ∧
    (init eng native_lib_path).clUIFuncs.onClientMoveTimeoutEvent = some onClientMoveTimeoutEvent ∧
    (init eng native_lib_path).clUIFuncs.onClientMoveMovedEvent = some onClientMoveMovedEvent ∧
    (init eng native_lib_path).clUIFuncs.onTalkStatusChangeEvent = some onTalkStatusChangeEvent ∧
    (init eng native_lib_path).clUIFuncs.onServerErrorEvent = some onServerErrorEvent ∧
    (init eng native_lib_path).clUIFuncs.onUserLoggingMessageEvent = some onUserLoggingMessageEvent ∧
    (∀ (gJavaVM : JavaVM) (env' : JNIEnv) (st' : Statics) (ev : NativeEvent),
      raise (init eng native_lib_path).clUIFuncs gJavaVM env' st' ev
        = some (ev.callback gJavaVM env' st')) ∧
    (∀ (gJavaVM : JavaVM) (env' : JNIEnv) (st₁ st₂ : Statics) (ev : NativeEvent),
      st₁.entry ev.kind = st₂.entry ev.kind →
      ev.callback gJavaVM env' st₁ = ev.callback gJavaVM env' st₂) := by
  refine ⟨?_, by decide, rfl, ?_, ?_, rfl, rfl, rfl, rfl, rfl, rfl, rfl, rfl, rfl, rfl, rfl,
    rfl, ?_, ?_⟩
  · unfold JNI_OnLoad
    simp only [hvm, ne_eq, not_true_eq_false, if_false, findClassCalls_append, initPairCalls,
      findClassCalls_initClassHelper]
    rfl
  · intro k
    cases k <;> decide
  · intro k
    exact JNI_OnLoad_entry vm env st k hvm
  · intro gJavaVM env' st' ev
    cases ev <;> rfl
  · intro gJavaVM env' st₁ st₂ ev h
    cases ev <;>
      simp only [NativeEvent.kind, Statics.entry] at h <;>
      simp only [NativeEvent.callback, onConnectStatusChangeEvent, onNewChannelEvent, onNewChannelCreatedEvent, onDelChannelEvent, onClientMoveEvent, onClientMoveSubscriptionEvent, onClientMoveTimeoutEvent, onClientMoveMovedEvent, onTalkStatusChangeEvent, onServerErrorEvent, onUserLoggingMessageEvent, h]

/-- Witness of C15: the load on a thread that has a runtime handle. -/
theorem event_wiring_is_complete_witness :
    attachedThread.GetEnv = JNI_OK ∧
    findClassCalls (JNI_OnLoad attachedThread sampleEnv zeroStatics).effects
      = "java/lang/String" :: EventKind.all.map EventKind.classPath ∧
    (init (constEngine 0) "lib").clUIFuncs.installed = EventKind.all :=
  ⟨by decide,
    (event_wiring_is_complete attachedThread sampleEnv zeroStatics (constEngine 0) "lib"
      (by decide)).1,
    (event_wiring_is_complete attachedThread sampleEnv zeroStatics (constEngine 0) "lib"
      (by decide)).2.2.2.2.2.1⟩


/-! ## The device calls that always succeed (claim C16) -/

/-- C16: for every connection handle, every argument and every engine (so for every error
code the engine call returns, zero or not), `openCaptureDevice`, `openPlaybackDevice`,
`closeCaptureDevice`, `closePlaybackDevice` and `activateCaptureDevice` return 0; each of them
does call the engine first, with the handle cast to `uint64`. -/
theorem device_calls_always_return_zero (eng : Engine) (serverConnectionHandlerID : Int)
    (modeID device : String) :
    (Java_com_teamspeak_ts3sdkclient_ts3sdk_Native_ts3client_1openCaptureDevice eng serverConnectionHandlerID modeID device).ret = 0 ∧
    (Java_com_teamspeak_ts3sdkclient_ts3sdk_Native_ts3client_1openPlaybackDevice eng serverConnectionHandlerID modeID device).ret = 0 ∧
    (Java_com_teamspeak_ts3sdkclient_ts3sdk_Native_ts3client_1closeCaptureDevice eng serverConnectionHandlerID).ret = 0 ∧
    (Java_com_teamspeak_ts3sdkclient_ts3sdk_Native_ts3client_1closePlaybackDevice eng serverConnectionHandlerID).ret = 0 ∧
    (Java_com_teamspeak_ts3sdkclient_ts3sdk_Native_ts3client_1activateCaptureDevice eng serverConnectionHandlerID).ret = 0 ∧
    (engineCalls
        (Java_com_teamspeak_ts3sdkclient_ts3sdk_Native_ts3client_1openCaptureDevice eng serverConnectionHandlerID modeID device).effects).head?
      = some (EngineCall.openCaptureDevice (toUint64 serverConnectionHandlerID) modeID device) ∧
    (engineCalls
        (Java_com_teamspeak_ts3sdkclient_ts3sdk_Native_ts3client_1openPlaybackDevice eng serverConnectionHandlerID modeID device).effects).head?
      = some (EngineCall.openPlaybackDevice (toUint64 serverConnectionHandlerID) modeID
          device) ∧
    (engineCalls (Java_com_teamspeak_ts3sdkclient_ts3sdk_Native_ts3client_1closeCaptureDevice eng serverConnectionHandlerID).effects).head?
      = some (EngineCall.closeCaptureDevice (toUint64 serverConnectionHandlerID)) ∧
    (engineCalls (Java_com_teamspeak_ts3sdkclient_ts3sdk_Native_ts3client_1closePlaybackDevice eng serverConnectionHandlerID).effects).head?
      = some (EngineCall.closePlaybackDevice (toUint64 serverConnectionHandlerID)) ∧
    (engineCalls (Java_com_teamspeak_ts3sdkclient_ts3sdk_Native_ts3client_1activateCaptureDevice eng serverConnectionHandlerID).effects).head?
      = some (EngineCall.activateCaptureDevice (toUint64 serverConnectionHandlerID)) :=
  ⟨rfl, rfl, rfl, rfl, rfl, rfl, rfl, rfl, rfl, rfl⟩

/-! ## Negative counts and buffers that are not direct (claims C18 and C19) -/

theorem sizeMul_gt_of_negative {n : Int} {C : Nat} (hn : isJint n) (hneg : n < 0)
    (hC : C ≤ 2 ^ 63 - 1) : sizeMul (toSizeT n) sizeofShort > C := by
  have h := sizeMul_toSizeT_of_neg hn hneg
  unfold isJint at hn
  omega

theorem sizeMul_le_max (a b : Nat) : sizeMul a b ≤ 2 ^ 64 - 1 := by
  unfold sizeMul SIZE_MODULUS
  omega

/-- C18: with the size check computed as the code computes it (the count converted to an
unsigned 64-bit number, times 2, modulo `2 ^ 64`), a negative 32-bit sample count is answered
`ERROR_parameter_invalid_count` by the acquire call and by the submit call whenever the
capacity stored for the device is at most `2 ^ 63 - 1`, and nothing is passed to the engine;
in a state where the entry of the device, if any, has such a capacity, a negative count never
reaches the engine. -/
theorem negative_count_never_reaches_engine (E : PublicErrors) (eng : Engine) (g : Globals)
    (D : String) (n : Int) (hn : isJint n) (hneg : n < 0) :
    (∀ C addr : Nat, C ≤ 2 ^ 63 - 1 → g.playByteBufferCache.find D = some (C, addr) →
      (Java_com_teamspeak_ts3sdkclient_ts3sdk_Native_ts3client_1acquireCustomPlaybackData E eng g D n).ret = toJint E.ERROR_parameter_invalid_count ∧
      engineCalls (Java_com_teamspeak_ts3sdkclient_ts3sdk_Native_ts3client_1acquireCustomPlaybackData E eng g D n).effects = []) ∧
    (∀ C addr : Nat, C ≤ 2 ^ 63 - 1 → g.capByteBufferCache.find D = some (C, addr) →
      (Java_com_teamspeak_ts3sdkclient_ts3sdk_Native_ts3client_1processCustomCaptureData E eng g D n).ret = toJint E.ERROR_parameter_invalid_count ∧
      engineCalls (Java_com_teamspeak_ts3sdkclient_ts3sdk_Native_ts3client_1processCustomCaptureData E eng g D n).effects = []) ∧
    ((∀ C addr : Nat, g.playByteBufferCache.find D = some (C, addr) → C ≤ 2 ^ 63 - 1) →
      engineCalls (Java_com_teamspeak_ts3sdkclient_ts3sdk_Native_ts3client_1acquireCustomPlaybackData E eng g D n).effects = []) ∧
    ((∀ C addr : Nat, g.capByteBufferCache.find D = some (C, addr) → C ≤ 2 ^ 63 - 1) →
      engineCalls (Java_com_teamspeak_ts3sdkclient_ts3sdk_Native_ts3client_1processCustomCaptureData E eng g D n).effects = []) := by
  refine ⟨?_, ?_, ?_, ?_⟩
  · intro C addr hC hD
    rw [acquire_of_too_large E eng hD (sizeMul_gt_of_negative hn hneg hC)]
    exact ⟨rfl, rfl⟩
  · intro C addr hC hD
    rw [process_of_too_large E eng hD (sizeMul_gt_of_negative hn hneg hC)]
    exact ⟨rfl, rfl⟩
  · intro hall
    cases hD : g.playByteBufferCache.find D with
    | none => rw [acquire_of_none E eng n hD]; rfl
    | some e =>
      obtain ⟨C, addr⟩ := e
      rw [acquire_of_too_large E eng hD (sizeMul_gt_of_negative hn hneg (hall C addr hD))]
      rfl
  · intro hall
    cases hD : g.capByteBufferCache.find D with
    | none => rw [process_of_none E eng n hD]; rfl
    | some e =>
      obtain ⟨C, addr⟩ := e
      rw [process_of_too_large E eng hD (sizeMul_gt_of_negative hn hneg (hall C addr hD))]
      rfl

/-- Witness of C18: count -1 against a capacity of 4 bytes, in both directions. -/
theorem negative_count_never_reaches_engine_witness :
    isJint (-1) ∧ (-1 : Int) < 0 ∧ (4 : Nat) ≤ 2 ^ 63 - 1 ∧
    (playOnly "dev" 4 100).playByteBufferCache.find "dev" = some (4, 100) ∧
    (capOnly "dev" 4 100).capByteBufferCache.find "dev" = some (4, 100) ∧
    (Java_com_teamspeak_ts3sdkclient_ts3sdk_Native_ts3client_1acquireCustomPlaybackData sampleErrors (constEngine 0) (playOnly "dev" 4 100) "dev" (-1)).ret
      = toJint sampleErrors.ERROR_parameter_invalid_count ∧
    (Java_com_teamspeak_ts3sdkclient_ts3sdk_Native_ts3client_1processCustomCaptureData sampleErrors (constEngine 0) (capOnly "dev" 4 100) "dev" (-1)).ret
      = toJint sampleErrors.ERROR_parameter_invalid_count :=
  ⟨by decide, by decide, by decide, by decide, by decide,
    ((negative_count_never_reaches_engine sampleErrors (constEngine 0) (playOnly "dev" 4 100)
      "dev" (-1) (by decide) (by decide)).1 4 100 (by decide) (by decide)).1,
    ((negative_count_never_reaches_engine sampleErrors (constEngine 0) (capOnly "dev" 4 100)
      "dev" (-1) (by decide) (by decide)).2.1 4 100 (by decide) (by decide)).1⟩

/-- C19: a buffer for which the runtime reports capacity -1 is stored like any other, with the
capacity `2 ^ 64 - 1` that the cast to `std::size_t` gives: after an accepted registration of
a device that had no entry in that direction, the entry is (`2 ^ 64 - 1`, address). For an
entry of that capacity the size check rejects nothing: for every sample count, negative ones
included, the acquire call and the submit call forward the count and the stored address to
the engine and return its code. -/
theorem capacity_minus_one_disables_the_check (E : PublicErrors) (eng eng' : Engine)
    (g : Globals) (D name : String) (cf cc pf pc : Int) (b : ByteBuffer) (n : Int)
    (hb : b.capacity = -1) :
    bufferPair b = (2 ^ 64 - 1, b.address) ∧
    (eng'.ts3client_registerCustomDevice D name cf cc pf pc = ERROR_ok →
      g.playByteBufferCache.find D = none →
      (Java_com_teamspeak_ts3sdkclient_ts3sdk_Native_ts3client_1registerCustomDevice eng' g D name cf cc none pf pc (some b)).globals.playByteBufferCache.find D
        = some (2 ^ 64 - 1, b.address) ∧
      engineCalls
          (Java_com_teamspeak_ts3sdkclient_ts3sdk_Native_ts3client_1acquireCustomPlaybackData E eng (Java_com_teamspeak_ts3sdkclient_ts3sdk_Native_ts3client_1registerCustomDevice eng' g D name cf cc none pf pc (some b)).globals D n).effects
        = [EngineCall.acquireCustomPlaybackData D b.address n]) ∧
    (eng'.ts3client_registerCustomDevice D name cf cc pf pc = ERROR_ok →
      g.capByteBufferCache.find D = none →
      (Java_com_teamspeak_ts3sdkclient_ts3sdk_Native_ts3client_1registerCustomDevice eng' g D name cf cc (some b) pf pc none).globals.capByteBufferCache.find D
        = some (2 ^ 64 - 1, b.address) ∧
      bufferCalls
          (Java_com_teamspeak_ts3sdkclient_ts3sdk_Native_ts3client_1processCustomCaptureData E eng (Java_com_teamspeak_ts3sdkclient_ts3sdk_Native_ts3client_1registerCustomDevice eng' g D name cf cc (some b) pf pc none).globals D n).effects
        = [EngineCall.processCustomCaptureData D b.address n]) ∧
    (∀ addr : Nat, g.playByteBufferCache.find D = some (2 ^ 64 - 1, addr) →
      engineCalls (Java_com_teamspeak_ts3sdkclient_ts3sdk_Native_ts3client_1acquireCustomPlaybackData E eng g D n).effects
        = [EngineCall.acquireCustomPlaybackData D addr n] ∧
      (Java_com_teamspeak_ts3sdkclient_ts3sdk_Native_ts3client_1acquireCustomPlaybackData E eng g D n).ret = toJint (eng.ts3client_acquireCustomPlaybackData D addr n)) ∧
    (∀ addr : Nat, g.capByteBufferCache.find D = some (2 ^ 64 - 1, addr) →
      bufferCalls (Java_com_teamspeak_ts3sdkclient_ts3sdk_Native_ts3client_1processCustomCaptureData E eng g D n).effects
        = [EngineCall.processCustomCaptureData D addr n] ∧
      (Java_com_teamspeak_ts3sdkclient_ts3sdk_Native_ts3client_1processCustomCaptureData E eng g D n).ret = toJint (eng.ts3client_processCustomCaptureData D addr n)) := by
  have hpair : bufferPair b = (2 ^ 64 - 1, b.address) := by
    unfold bufferPair toSizeT SIZE_MODULUS
    rw [hb]
    rfl
  have hacq : ∀ (g₀ : Globals) (addr : Nat),
      g₀.playByteBufferCache.find D = some (2 ^ 64 - 1, addr) →
      engineCalls (Java_com_teamspeak_ts3sdkclient_ts3sdk_Native_ts3client_1acquireCustomPlaybackData E eng g₀ D n).effects
        = [EngineCall.acquireCustomPlaybackData D addr n] ∧
      (Java_com_teamspeak_ts3sdkclient_ts3sdk_Native_ts3client_1acquireCustomPlaybackData E eng g₀ D n).ret = toJint (eng.ts3client_acquireCustomPlaybackData D addr n) := by
    intro g₀ addr hD
    rw [acquire_of_fits E eng hD (sizeMul_le_max _ _)]
    exact ⟨rfl, rfl⟩
  have hproc : ∀ (g₀ : Globals) (addr : Nat),
      g₀.capByteBufferCache.find D = some (2 ^ 64 - 1, addr) →
      bufferCalls (Java_com_teamspeak_ts3sdkclient_ts3sdk_Native_ts3client_1processCustomCaptureData E eng g₀ D n).effects
        = [EngineCall.processCustomCaptureData D addr n] ∧
      (Java_com_teamspeak_ts3sdkclient_ts3sdk_Native_ts3client_1processCustomCaptureData E eng g₀ D n).ret
        = toJint (eng.ts3client_processCustomCaptureData D addr n) := by
    intro g₀ addr hD
    rw [process_of_fits E eng hD (sizeMul_le_max _ _)]
    refine ⟨?_, rfl⟩
    simp only [bufferCalls_append]
    split
    · rw [bufferCalls_reportError]; rfl
    · rfl
  refine ⟨hpair, ?_, ?_, hacq g, hproc g⟩
  · intro hok hnone
    have hfind : (Java_com_teamspeak_ts3sdkclient_ts3sdk_Native_ts3client_1registerCustomDevice eng' g D name cf cc none pf pc
        (some b)).globals.playByteBufferCache.find D = some (2 ^ 64 - 1, b.address) := by
      rw [register_globals_of_ok g none (some b) hok, ← hpair]
      exact ByteBufferCache.find_emplace_of_none _ hnone
    exact ⟨hfind, (hacq _ _ hfind).1⟩
  · intro hok hnone
    have hfind : (Java_com_teamspeak_ts3sdkclient_ts3sdk_Native_ts3client_1registerCustomDevice eng' g D name cf cc (some b) pf pc
        none).globals.capByteBufferCache.find D = some (2 ^ 64 - 1, b.address) := by
      rw [register_globals_of_ok g (some b) none hok, ← hpair]
      exact ByteBufferCache.find_emplace_of_none _ hnone
    exact ⟨hfind, (hproc _ _ hfind).1⟩

/-- Witness of C19: "dev" registered with a playback buffer of reported capacity -1, then an
acquire call for -5 samples is forwarded. -/
theorem capacity_minus_one_disables_the_check_witness :
    (⟨-1, 100⟩ : ByteBuffer).capacity = -1 ∧
    (constEngine 0).ts3client_registerCustomDevice "dev" "Dev" 48000 1 48000 1 = ERROR_ok ∧
    emptyGlobals.playByteBufferCache.find "dev" = none ∧
    engineCalls
        (Java_com_teamspeak_ts3sdkclient_ts3sdk_Native_ts3client_1acquireCustomPlaybackData sampleErrors (constEngine 0)
          (Java_com_teamspeak_ts3sdkclient_ts3sdk_Native_ts3client_1registerCustomDevice (constEngine 0) emptyGlobals "dev" "Dev" 48000 1 none 48000 1
            (some ⟨-1, 100⟩)).globals "dev" (-5)).effects
      = [EngineCall.acquireCustomPlaybackData "dev" (⟨-1, 100⟩ : ByteBuffer).address (-5)] :=
  ⟨by decide, by decide, by decide,
    ((capacity_minus_one_disables_the_check sampleErrors (constEngine 0) (constEngine 0)
      emptyGlobals "dev" "Dev" 48000 1 48000 1 ⟨-1, 100⟩ (-5) (by decide)).2.1
      (by decide) (by decide)).2⟩

/-! ## Unregistration and the engine's answer (claim C20) -/

/-- C20: whatever code `e` the engine's unregister call returns, zero or not,
`unregisterCustomDevice(D)` leaves neither a playback nor a capture entry for `D` and returns
`e` (as a `jint`, `e` itself when below `2 ^ 31`). -/
theorem unregister_ignores_engine_answer (eng : Engine) (g : Globals) (D : String) (e : Nat)
    (he : eng.ts3client_unregisterCustomDevice D = e) :
    (Java_com_teamspeak_ts3sdkclient_ts3sdk_Native_ts3client_1unregisterCustomDevice eng g D).globals.playByteBufferCache.find D = none ∧
    (Java_com_teamspeak_ts3sdkclient_ts3sdk_Native_ts3client_1unregisterCustomDevice eng g D).globals.capByteBufferCache.find D = none ∧
    (Java_com_teamspeak_ts3sdkclient_ts3sdk_Native_ts3client_1unregisterCustomDevice eng g D).ret = toJint e ∧
    (e < 2 ^ 31 → (Java_com_teamspeak_ts3sdkclient_ts3sdk_Native_ts3client_1unregisterCustomDevice eng g D).ret = (e : Int)) := by
  have hret : (Java_com_teamspeak_ts3sdkclient_ts3sdk_Native_ts3client_1unregisterCustomDevice eng g D).ret = toJint e := by
    rw [← he]; rfl
  refine ⟨?_, ?_, hret, ?_⟩
  · rw [unregister_play]
    exact ByteBufferCache.find_findErase_self _ D
  · rw [unregister_cap]
    exact ByteBufferCache.find_findErase_self _ D
  · intro hlt
    rw [hret, toJint_of_lt hlt]

/-- Witness of C20: the engine answers 7, the playback entry of "dev" is removed all the
same. -/
theorem unregister_ignores_engine_answer_witness :
    (constEngine 7).ts3client_unregisterCustomDevice "dev" = 7 ∧
    (playOnly "dev" 4 100).playByteBufferCache.find "dev" = some (4, 100) ∧
    (Java_com_teamspeak_ts3sdkclient_ts3sdk_Native_ts3client_1unregisterCustomDevice (constEngine 7) (playOnly "dev" 4 100) "dev").globals.playByteBufferCache.find "dev"
      = none ∧
    (Java_com_teamspeak_ts3sdkclient_ts3sdk_Native_ts3client_1unregisterCustomDevice (constEngine 7) (playOnly "dev" 4 100) "dev").ret = toJint 7 :=
  ⟨by decide, by decide,
    (unregister_ignores_engine_answer (constEngine 7) (playOnly "dev" 4 100) "dev" 7
      (by decide)).1,
    (unregister_ignores_engine_answer (constEngine 7) (playOnly "dev" 4 100) "dev" 7
      (by decide)).2.2.1⟩

/-! ## Frame properties of the four wrappers (claims C21 to C23) -/

theorem releasedChars_append (s : String) (l₁ l₂ : List Effect) :
    releasedChars s (l₁ ++ l₂) = releasedChars s l₁ + releasedChars s l₂ := by
  induction l₁ with
  | nil => simp [releasedChars]
  | cons a t ih =>
    cases a with
    | ReleaseStringUTFChars s' =>
      by_cases h : s' = s
      · simp [releasedChars, h, ih]; omega
      · simp [releasedChars, h, ih]
    | _ => simp [releasedChars, ih]

theorem releasedChars_reportError (s : String) (eng : Engine) (error : Nat) (text : String)
    (fallback : Option String) : releasedChars s (reportError eng error text fallback) = 0 := by
  unfold reportError
  split
  · rfl
  · cases fallback <;> rfl

theorem releasedChars_process_report (s : String) (eng : Engine) (error : Nat) :
    releasedChars s
      (if error ≠ ERROR_ok then reportError eng error "Failed to process capture data: " none
        else []) = 0 := by
  split
  · exact releasedChars_reportError s eng error _ none
  · rfl

/-- C21: for distinct device identifiers `D` and `D'`, `registerCustomDevice(D, ...)` and
`unregisterCustomDevice(D)` leave the playback entry and the capture entry of `D'` as they
were: absent if absent, and with the same capacity and address if present. -/
theorem other_devices_are_untouched (eng : Engine) (g : Globals) (D D' name : String)
    (cf cc pf pc : Int) (cap play : Option ByteBuffer) (hne : D' ≠ D) :
    (Java_com_teamspeak_ts3sdkclient_ts3sdk_Native_ts3client_1registerCustomDevice eng g D name cf cc cap pf pc play).globals.playByteBufferCache.find D'
      = g.playByteBufferCache.find D' ∧
    (Java_com_teamspeak_ts3sdkclient_ts3sdk_Native_ts3client_1registerCustomDevice eng g D name cf cc cap pf pc play).globals.capByteBufferCache.find D'
      = g.capByteBufferCache.find D' ∧
    (Java_com_teamspeak_ts3sdkclient_ts3sdk_Native_ts3client_1unregisterCustomDevice eng g D).globals.playByteBufferCache.find D' = g.playByteBufferCache.find D' ∧
    (Java_com_teamspeak_ts3sdkclient_ts3sdk_Native_ts3client_1unregisterCustomDevice eng g D).globals.capByteBufferCache.find D' = g.capByteBufferCache.find D' := by
  refine ⟨?_, ?_, ?_, ?_⟩
  · by_cases hok : eng.ts3client_registerCustomDevice D name cf cc pf pc = ERROR_ok
    · rw [register_globals_of_ok g cap play hok]
      cases play with
      | none => rfl
      | some b => exact ByteBufferCache.find_emplace_ne _ hne
    · rw [register_globals_of_error g cap play hok]
  · by_cases hok : eng.ts3client_registerCustomDevice D name cf cc pf pc = ERROR_ok
    · rw [register_globals_of_ok g cap play hok]
      cases cap with
      | none => rfl
      | some b => exact ByteBufferCache.find_emplace_ne _ hne
    · rw [register_globals_of_error g cap play hok]
  · rw [unregister_play]
    exact ByteBufferCache.find_findErase_ne hne
  · rw [unregister_cap]
    exact ByteBufferCache.find_findErase_ne hne

/-- Witness of C21: "other" keeps its playback entry when "dev" is registered and when "dev"
is unregistered. -/
theorem other_devices_are_untouched_witness :
    "other" ≠ "dev" ∧
    (playOnly "other" 4 100).playByteBufferCache.find "other" = some (4, 100) ∧
    (Java_com_teamspeak_ts3sdkclient_ts3sdk_Native_ts3client_1registerCustomDevice (constEngine 0) (playOnly "other" 4 100) "dev" "Dev" 48000 1 (some ⟨6, 300⟩) 48000 1
      (some ⟨8, 200⟩)).globals.playByteBufferCache.find "other"
      = (playOnly "other" 4 100).playByteBufferCache.find "other" ∧
    (Java_com_teamspeak_ts3sdkclient_ts3sdk_Native_ts3client_1unregisterCustomDevice (constEngine 0) (playOnly "other" 4 100) "dev").globals.playByteBufferCache.find
        "other"
      = (playOnly "other" 4 100).playByteBufferCache.find "other" :=
  ⟨by decide, by decide,
    (other_devices_are_untouched (constEngine 0) (playOnly "other" 4 100) "dev" "other" "Dev"
      48000 1 48000 1 (some ⟨6, 300⟩) (some ⟨8, 200⟩) (by decide)).1,
    (other_devices_are_untouched (constEngine 0) (playOnly "other" 4 100) "dev" "other" "Dev"
      48000 1 48000 1 (some ⟨6, 300⟩) (some ⟨8, 200⟩) (by decide)).2.2.1⟩

/-- C22: the acquire call and the submit call leave both caches exactly as they were, for
every state, device identifier, sample count and engine, that is on each of the three exits
(`ERROR_parameter_invalid`, `ERROR_parameter_invalid_count`, the engine's code). -/
theorem sample_calls_leave_caches_unchanged (E : PublicErrors) (eng : Engine) (g : Globals)
    (D : String) (n : Int) :
    (Java_com_teamspeak_ts3sdkclient_ts3sdk_Native_ts3client_1acquireCustomPlaybackData E eng g D n).globals = g ∧ (Java_com_teamspeak_ts3sdkclient_ts3sdk_Native_ts3client_1processCustomCaptureData E eng g D n).globals = g := by
  constructor
  · cases hD : g.playByteBufferCache.find D with
    | none => rw [acquire_of_none E eng n hD]
    | some e =>
      obtain ⟨C, addr⟩ := e
      by_cases hle : sizeMul (toSizeT n) sizeofShort ≤ C
      · rw [acquire_of_fits E eng hD hle]
      · rw [acquire_of_too_large E eng hD (Nat.lt_of_not_le hle)]
  · cases hD : g.capByteBufferCache.find D with
    | none => rw [process_of_none E eng n hD]
    | some e =>
      obtain ⟨C, addr⟩ := e
      by_cases hle : sizeMul (toSizeT n) sizeofShort ≤ C
      · rw [process_of_fits E eng hD hle]
      · rw [process_of_too_large E eng hD (Nat.lt_of_not_le hle)]

/-- C23: the acquire call and the submit call obtain the characters of the device identifier
once, on entry, and release them once exactly when validation passes, that is when the device
has an entry in the direction of the call and the size check lets the request through. When
there is no entry (`ERROR_parameter_invalid`) and when the request is too large
(`ERROR_parameter_invalid_count`) the call returns without releasing them. -/
theorem chars_released_iff_validation_passes (E : PublicErrors) (eng : Engine) (g : Globals)
    (D : String) (n : Int) :
    obtainedChars D (Java_com_teamspeak_ts3sdkclient_ts3sdk_Native_ts3client_1acquireCustomPlaybackData E eng g D n).effects = 1 ∧
    obtainedChars D (Java_com_teamspeak_ts3sdkclient_ts3sdk_Native_ts3client_1processCustomCaptureData E eng g D n).effects = 1 ∧
    (releasedChars D (Java_com_teamspeak_ts3sdkclient_ts3sdk_Native_ts3client_1acquireCustomPlaybackData E eng g D n).effects = 1 ↔
      ∃ C addr, g.playByteBufferCache.find D = some (C, addr) ∧
        sizeMul (toSizeT n) sizeofShort ≤ C) ∧
    (releasedChars D (Java_com_teamspeak_ts3sdkclient_ts3sdk_Native_ts3client_1processCustomCaptureData E eng g D n).effects = 1 ↔
      ∃ C addr, g.capByteBufferCache.find D = some (C, addr) ∧
        sizeMul (toSizeT n) sizeofShort ≤ C) ∧
    (g.playByteBufferCache.find D = none →
      (Java_com_teamspeak_ts3sdkclient_ts3sdk_Native_ts3client_1acquireCustomPlaybackData E eng g D n).ret = toJint E.ERROR_parameter_invalid ∧
      releasedChars D (Java_com_teamspeak_ts3sdkclient_ts3sdk_Native_ts3client_1acquireCustomPlaybackData E eng g D n).effects = 0) ∧
    (g.capByteBufferCache.find D = none →
      (Java_com_teamspeak_ts3sdkclient_ts3sdk_Native_ts3client_1processCustomCaptureData E eng g D n).ret = toJint E.ERROR_parameter_invalid ∧
      releasedChars D (Java_com_teamspeak_ts3sdkclient_ts3sdk_Native_ts3client_1processCustomCaptureData E eng g D n).effects = 0) ∧
    (∀ C addr, g.playByteBufferCache.find D = some (C, addr) →
      sizeMul (toSizeT n) sizeofShort > C →
      (Java_com_teamspeak_ts3sdkclient_ts3sdk_Native_ts3client_1acquireCustomPlaybackData E eng g D n).ret = toJint E.ERROR_parameter_invalid_count ∧
      releasedChars D (Java_com_teamspeak_ts3sdkclient_ts3sdk_Native_ts3client_1acquireCustomPlaybackData E eng g D n).effects = 0) ∧
    (∀ C addr, g.capByteBufferCache.find D = some (C, addr) →
      sizeMul (toSizeT n) sizeofShort > C →
      (Java_com_teamspeak_ts3sdkclient_ts3sdk_Native_ts3client_1processCustomCaptureData E eng g D n).ret = toJint E.ERROR_parameter_invalid_count ∧
      releasedChars D (Java_com_teamspeak_ts3sdkclient_ts3sdk_Native_ts3client_1processCustomCaptureData E eng g D n).effects = 0) := by
  have relA : ∀ C addr, g.playByteBufferCache.find D = some (C, addr) →
      sizeMul (toSizeT n) sizeofShort ≤ C →
      releasedChars D (Java_com_teamspeak_ts3sdkclient_ts3sdk_Native_ts3client_1acquireCustomPlaybackData E eng g D n).effects = 1 := by
    intro C addr hD hle
    rw [acquire_of_fits E eng hD hle]
    simp [releasedChars]
  have relP : ∀ C addr, g.capByteBufferCache.find D = some (C, addr) →
      sizeMul (toSizeT n) sizeofShort ≤ C →
      releasedChars D (Java_com_teamspeak_ts3sdkclient_ts3sdk_Native_ts3client_1processCustomCaptureData E eng g D n).effects = 1 := by
    intro C addr hD hle
    rw [process_of_fits E eng hD hle]
    simp only [releasedChars_append, releasedChars_process_report]
    simp [releasedChars]
  have noneA : g.playByteBufferCache.find D = none →
      (Java_com_teamspeak_ts3sdkclient_ts3sdk_Native_ts3client_1acquireCustomPlaybackData E eng g D n).ret = toJint E.ERROR_parameter_invalid ∧
      releasedChars D (Java_com_teamspeak_ts3sdkclient_ts3sdk_Native_ts3client_1acquireCustomPlaybackData E eng g D n).effects = 0 := by
    intro hD
    rw [acquire_of_none E eng n hD]
    exact ⟨rfl, rfl⟩
  have noneP : g.capByteBufferCache.find D = none →
      (Java_com_teamspeak_ts3sdkclient_ts3sdk_Native_ts3client_1processCustomCaptureData E eng g D n).ret = toJint E.ERROR_parameter_invalid ∧
      releasedChars D (Java_com_teamspeak_ts3sdkclient_ts3sdk_Native_ts3client_1processCustomCaptureData E eng g D n).effects = 0 := by
    intro hD
    rw [process_of_none E eng n hD]
    exact ⟨rfl, rfl⟩
  have bigA : ∀ C addr, g.playByteBufferCache.find D = some (C, addr) →
      sizeMul (toSizeT n) sizeofShort > C →
      (Java_com_teamspeak_ts3sdkclient_ts3sdk_Native_ts3client_1acquireCustomPlaybackData E eng g D n).ret = toJint E.ERROR_parameter_invalid_count ∧
      releasedChars D (Java_com_teamspeak_ts3sdkclient_ts3sdk_Native_ts3client_1acquireCustomPlaybackData E eng g D n).effects = 0 := by
    intro C addr hD hgt
    rw [acquire_of_too_large E eng hD hgt]
    exact ⟨rfl, rfl⟩
  have bigP : ∀ C addr, g.capByteBufferCache.find D = some (C, addr) →
      sizeMul (toSizeT n) sizeofShort > C →
      (Java_com_teamspeak_ts3sdkclient_ts3sdk_Native_ts3client_1processCustomCaptureData E eng g D n).ret = toJint E.ERROR_parameter_invalid_count ∧
      releasedChars D (Java_com_teamspeak_ts3sdkclient_ts3sdk_Native_ts3client_1processCustomCaptureData E eng g D n).effects = 0 := by
    intro C addr hD hgt
    rw [process_of_too_large E eng hD hgt]
    exact ⟨rfl, rfl⟩
  refine ⟨?_, ?_, ?_, ?_, noneA, noneP, bigA, bigP⟩
  · cases hD : g.playByteBufferCache.find D with
    | none => rw [acquire_of_none E eng n hD]; simp [obtainedChars]
    | some e =>
      obtain ⟨C, addr⟩ := e
      by_cases hle : sizeMul (toSizeT n) sizeofShort ≤ C
      · rw [acquire_of_fits E eng hD hle]; simp [obtainedChars]
      · rw [acquire_of_too_large E eng hD (Nat.lt_of_not_le hle)]; simp [obtainedChars]
  · cases hD : g.capByteBufferCache.find D with
    | none => rw [process_of_none E eng n hD]; simp [obtainedChars]
    | some e =>
      obtain ⟨C, addr⟩ := e
      by_cases hle : sizeMul (toSizeT n) sizeofShort ≤ C
      · rw [process_of_fits E eng hD hle]
        unfold reportError
        split
        · split <;> simp [obtainedChars]
        · simp [obtainedChars]
      · rw [process_of_too_large E eng hD (Nat.lt_of_not_le hle)]; simp [obtainedChars]
  · constructor
    · intro h
      cases hD : g.playByteBufferCache.find D with
      | none => rw [(noneA hD).2] at h; exact absurd h (by decide)
      | some e =>
        obtain ⟨C, addr⟩ := e
        by_cases hle : sizeMul (toSizeT n) sizeofShort ≤ C
        · exact ⟨C, addr, rfl, hle⟩
        · rw [(bigA C addr hD (Nat.lt_of_not_le hle)).2] at h; exact absurd h (by decide)
    · rintro ⟨C, addr, hD, hle⟩
      exact relA C addr hD hle
  · constructor
    · intro h
      cases hD : g.capByteBufferCache.find D with
      | none => rw [(noneP hD).2] at h; exact absurd h (by decide)
      | some e =>
        obtain ⟨C, addr⟩ := e
        by_cases hle : sizeMul (toSizeT n) sizeofShort ≤ C
        · exact ⟨C, addr, rfl, hle⟩
        · rw [(bigP C addr hD (Nat.lt_of_not_le hle)).2] at h; exact absurd h (by decide)
    · rintro ⟨C, addr, hD, hle⟩
      exact relP C addr hD hle

/-- Witness of C23: an unknown device and an oversized request leave the characters
unreleased. -/
theorem chars_released_iff_validation_passes_witness :
    emptyGlobals.playByteBufferCache.find "dev" = none ∧
    releasedChars "dev" (Java_com_teamspeak_ts3sdkclient_ts3sdk_Native_ts3client_1acquireCustomPlaybackData sampleErrors (constEngine 0) emptyGlobals "dev" 1).effects = 0 ∧
    (capOnly "dev" 4 100).capByteBufferCache.find "dev" = some (4, 100) ∧
    sizeMul (toSizeT 3) sizeofShort > 4 ∧
    releasedChars "dev"
      (Java_com_teamspeak_ts3sdkclient_ts3sdk_Native_ts3client_1processCustomCaptureData sampleErrors (constEngine 0) (capOnly "dev" 4 100) "dev" 3).effects = 0 :=
  ⟨by decide,
    ((chars_released_iff_validation_passes sampleErrors (constEngine 0) emptyGlobals "dev"
      1).2.2.2.2.1 (by decide)).2,
    by decide, by decide,
    ((chars_released_iff_validation_passes sampleErrors (constEngine 0) (capOnly "dev" 4 100)
      "dev" 3).2.2.2.2.2.2.2 4 100 (by decide) (by decide)).2⟩

end Ts3Wrapper
